import Mathlib

set_option autoImplicit false

/-!
Verification of the pyrill query compiler and explore-URL encoder.

This file is a shallow embedding, in Lean 4, of the parts of the pyrill
sources that the verified properties talk about:

* `src/pyrill/models/query.py` — the typed query AST (`MetricsQuery`,
  `TimeRange`, `Expression`, `Condition`, `Sort`, …);
* `src/pyrill/models/navigation.py` — the `RillUrl` value object and the
  query-parameter assembly performed by its `__str__` method;
* `src/pyrill/url_builder.py` — the `UrlBuilder` class;
* `src/pyrill/query_builder.py` — the `QueryBuilder` class (validation and
  conversion of caller-supplied filter / time-range mappings).

Modelling conventions:

* Python `Optional[T]` fields become `Option T`; a Python mapping is
  modelled as a record of `Option`-typed fields where `none` means the key
  is absent.
* Python truthiness on optional strings and lists (`if x:`) is modelled
  explicitly: `none`, the empty string and the empty list are falsy.
* Fallible Python code (raising `ValueError` / `TypeError`) is modelled
  with `Except PyErr`; in-place mutation of the builder object and of
  caller-supplied mappings is modelled by returning the post-call state
  alongside the result.
* Warnings routed through the logger are returned as a list of the warning
  message strings.
* `datetime.fromisoformat` is modelled for the grammar the repository
  actually feeds it: `YYYY-MM-DD`, optionally followed by a `T` or space
  separator, `HH:MM` or `HH:MM:SS`, and an optional `+HH:MM` / `-HH:MM`
  offset (`Z` is already rewritten to `+00:00` by the caller, as in the
  source).  Values are reduced to a count of seconds together with an
  awareness flag, mirroring aware/naive datetime subtraction.
* URL percent-encoding is below the abstraction level used here: the URL
  is modelled as the `RillUrl` record plus the ordered key/value parameter
  list that `RillUrl.__str__` assembles before calling `urlencode`.
-/

/-- Substring test used to state "the error message mentions …" properties:
`leadsWith pat l` holds when `pat` is a prefix of `l`. -/
def leadsWith : List Char → List Char → Bool
  | [], _ => true
  | _ :: _, [] => false
  | p :: ps, h :: hs => p == h && leadsWith ps hs

/-- Does `pat` occur as a contiguous sublist of `l`? -/
def containsSub (pat : List Char) : List Char → Bool
  | [] => leadsWith pat []
  | h :: t => leadsWith pat (h :: t) || containsSub pat t

/-- Does the string `s` contain `pat` as a substring? -/
def containsStr (s pat : String) : Bool := containsSub pat.data s.data

/-- Python truthiness of an optional string: `None` and `""` are falsy. -/
def truthyS : Option String → Bool
  | none => false
  | some s => !(s = "")

/-- Python `a or b` on optional strings (used for org/project resolution):
a falsy left operand falls through to the right operand. -/
def pyOrStr (a b : Option String) : Option String :=
  match a with
  | some s => if s = "" then b else some s
  | none => b

/-- Python exceptions raised by the modelled code. -/
inductive PyErr where
  | valueError (msg : String)
  | typeError (msg : String)
  | keyError (key : String)
deriving Repr, DecidableEq

/-- Untyped Python value, as stored in caller-supplied filter mappings
(`value` / `values` entries can be any literal). -/
inductive PyVal where
  | str (s : String)
  | int (n : Int)
  | bool (b : Bool)
  | pynone
  | list (xs : List PyVal)

/-- TimeGrain enum from `models/query.py`. -/
inductive TimeGrain where
  | unspecified | millisecond | second | minute | hour | day | week | month | quarter | year
deriving Repr, DecidableEq

/-- Python `TimeGrain(value)` enum lookup; `none` models the `ValueError`
raised on an unknown value. -/
def TimeGrain.ofString : String → Option TimeGrain := fun s =>
  if s = "" then some .unspecified
  else if s = "millisecond" then some .millisecond
  else if s = "second" then some .second
  else if s = "minute" then some .minute
  else if s = "hour" then some .hour
  else if s = "day" then some .day
  else if s = "week" then some .week
  else if s = "month" then some .month
  else if s = "quarter" then some .quarter
  else if s = "year" then some .year
  else none

/-- Operator enum from `models/query.py`. -/
inductive Operator where
  | unspecified | eq | neq | lt | lte | gt | gte | «in» | nin | ilike | nilike | «or» | «and»
deriving Repr, DecidableEq

/-- Python `Operator(value)` enum lookup. -/
def Operator.ofString : String → Option Operator := fun s =>
  if s = "" then some .unspecified
  else if s = "eq" then some .eq
  else if s = "neq" then some .neq
  else if s = "lt" then some .lt
  else if s = "lte" then some .lte
  else if s = "gt" then some .gt
  else if s = "gte" then some .gte
  else if s = "in" then some .«in»
  else if s = "nin" then some .nin
  else if s = "ilike" then some .ilike
  else if s = "nilike" then some .nilike
  else if s = "or" then some .«or»
  else if s = "and" then some .«and»
  else none

/-- DimensionComputeTimeFloor from `models/query.py`. -/
structure DimensionComputeTimeFloor where
  dimension : String
  grain : TimeGrain
deriving Repr, DecidableEq

/-- DimensionCompute from `models/query.py`. -/
structure DimensionCompute where
  time_floor : Option DimensionComputeTimeFloor := none
deriving Repr, DecidableEq

/-- Dimension from `models/query.py`. -/
structure Dimension where
  name : String
  compute : Option DimensionCompute := none
deriving Repr, DecidableEq

/-- MeasureComputeCountDistinct from `models/query.py`. -/
structure MeasureComputeCountDistinct where
  dimension : String
deriving Repr, DecidableEq

/-- MeasureComputeComparisonValue from `models/query.py`. -/
structure MeasureComputeComparisonValue where
  measure : String
deriving Repr, DecidableEq

/-- MeasureComputeComparisonDelta from `models/query.py`. -/
structure MeasureComputeComparisonDelta where
  measure : String
deriving Repr, DecidableEq

/-- MeasureComputeComparisonRat from `models/query.py` (comparison ratio). -/
structure MeasureComputeComparisonRat where
  measure : String
deriving Repr, DecidableEq

/-- MeasureComputePercentOfTotal from `models/query.py`; the float `total`
field is modelled opaquely as it never flows into verified code. -/
structure MeasureComputePercentOfTotal where
  measure : String
deriving Repr, DecidableEq

/-- MeasureComputeURI from `models/query.py`. -/
structure MeasureComputeURI where
  dimension : String
deriving Repr, DecidableEq

/-- MeasureCompute from `models/query.py`. -/
structure MeasureCompute where
  count : Option Bool := none
  count_distinct : Option MeasureComputeCountDistinct := none
  comparison_value : Option MeasureComputeComparisonValue := none
  comparison_delta : Option MeasureComputeComparisonDelta := none
  comparison_ratio : Option MeasureComputeComparisonRat := none
  percent_of_total : Option MeasureComputePercentOfTotal := none
  uri : Option MeasureComputeURI := none
deriving Repr, DecidableEq

/-- Measure from `models/query.py`. -/
structure Measure where
  name : String
  compute : Option MeasureCompute := none
deriving Repr, DecidableEq

/-- Sort from `models/query.py` (`Sort` itself is a Lean keyword). -/
structure Sort' where
  name : String
  desc : Bool := false
deriving Repr, DecidableEq

/-- TimeRange from `models/query.py`. -/
structure TimeRange where
  start : Option String := none
  «end» : Option String := none
  iso_duration : Option String := none
  iso_offset : Option String := none
  expression : Option String := none
  round_to_grain : Option TimeGrain := none
deriving Repr, DecidableEq

/-- TimeSpine from `models/query.py`. -/
structure TimeSpine where
  start : String
  «end» : String
  grain : TimeGrain
deriving Repr, DecidableEq

mutual
/-- Expression from `models/query.py`: tagged union of field reference,
literal value, condition and subquery. -/
inductive Expression where
  | mk (name : Option String) (val : Option PyVal) (cond : Option Condition)
      (subquery : Option Subquery) : Expression
/-- Condition from `models/query.py`: operator plus operand expressions. -/
inductive Condition where
  | mk (op : Operator) (exprs : Option (List Expression)) : Condition
/-- Subquery from `models/query.py`. -/
inductive Subquery where
  | mk (dimension : Dimension) (measures : List Measure)
      («where» : Option Expression) (having : Option Expression) : Subquery
end

/-- Field accessor mirroring `Expression.name`. -/
def Expression.name : Expression → Option String
  | .mk n _ _ _ => n

/-- Field accessor mirroring `Expression.val`. -/
def Expression.val : Expression → Option PyVal
  | .mk _ v _ _ => v

/-- Field accessor mirroring `Expression.cond`. -/
def Expression.cond : Expression → Option Condition
  | .mk _ _ c _ => c

/-- Field accessor mirroring `Condition.op`. -/
def Condition.op : Condition → Operator
  | .mk o _ => o

/-- Field accessor mirroring `Condition.exprs`. -/
def Condition.exprs : Condition → Option (List Expression)
  | .mk _ e => e

/-- WhereSpine from `models/query.py`. -/
structure WhereSpine where
  expr : Option Expression := none

/-- Spine from `models/query.py`. -/
structure Spine where
  time : Option TimeSpine := none
  «where» : Option WhereSpine := none

/-- MetricsQuery from `models/query.py`: the immutable query AST. -/
structure MetricsQuery where
  metrics_view : String
  dimensions : Option (List Dimension) := none
  measures : Option (List Measure) := none
  «where» : Option Expression := none
  having : Option Expression := none
  time_range : Option TimeRange := none
  comparison_time_range : Option TimeRange := none
  spine : Option Spine := none
  sort : Option (List Sort') := none
  limit : Option Int := none
  offset : Option Int := none
  pivot_on : Option (List String) := none
  time_zone : Option String := none
  use_display_names : Option Bool := none
  rows : Option Bool := none

/-- RillUrl from `models/navigation.py`: structured representation of an
explore URL. -/
structure RillUrl where
  base_url : String
  org : String
  project : String
  page_type : String := "explore"
  page_name : String
  time_range : Option String := none
  timezone : Option String := none
  measures : Option (List String) := none
  dimensions : Option (List String) := none
  sort_dir : Option String := none
  sort_by : Option String := none
  leaderboard_measures : Option (List String) := none
  view : Option String := none
  rows : Option (List String) := none
  cols : Option (List String) := none
  table_mode : Option String := none
  filter_expr : Option String := none
  grain : Option String := none
  compare_time_range : Option String := none
deriving Repr, DecidableEq

/-- One `if self.x: params[k] = self.x` step of `RillUrl.__str__` for a
string-valued field (falsy `None` / `""` emits nothing). -/
def addS (k : String) (v : Option String) : List (String × String) :=
  match v with
  | some s => if s = "" then [] else [(k, s)]
  | none => []

/-- One `if self.x: params[k] = ",".join(self.x)` step of `RillUrl.__str__`
for a list-valued field (falsy `None` / `[]` emits nothing). -/
def addL (k : String) (v : Option (List String)) : List (String × String) :=
  match v with
  | some l => if l = [] then [] else [(k, String.intercalate "," l)]
  | none => []

/-- Ordered query-parameter list assembled by `RillUrl.__str__` (the
`params` dict, whose insertion order is preserved by `urlencode`). -/
def RillUrl.params (u : RillUrl) : List (String × String) :=
  addS "tr" u.time_range ++ addS "tz" u.timezone ++
  addL "measures" u.measures ++ addL "dims" u.dimensions ++
  addS "sort_dir" u.sort_dir ++ addS "sort_by" u.sort_by ++
  addL "leaderboard_measures" u.leaderboard_measures ++
  addS "view" u.view ++ addL "rows" u.rows ++ addL "cols" u.cols ++
  addS "table_mode" u.table_mode ++ addS "f" u.filter_expr ++
  addS "grain" u.grain ++ addS "compare_tr" u.compare_time_range

/-- Path part of `RillUrl.__str__`. -/
def RillUrl.path (u : RillUrl) : String :=
  u.base_url ++ "/" ++ u.org ++ "/" ++ u.project ++ "/" ++ u.page_type ++ "/" ++ u.page_name

/-- Decimal value of a digit character. -/
def digitVal (c : Char) : Nat := c.toNat - 48

/-- Two-digit decimal field of a timestamp. -/
def d2 (a b : Char) : Option Nat :=
  if a.isDigit && b.isDigit then some (10 * digitVal a + digitVal b) else none

/-- Four-digit decimal field of a timestamp. -/
def d4 (a b c d : Char) : Option Nat :=
  if a.isDigit && b.isDigit && c.isDigit && d.isDigit then
    some (1000 * digitVal a + 100 * digitVal b + 10 * digitVal c + digitVal d)
  else none

/-- Gregorian leap-year test (as in Python `calendar`/`datetime`). -/
def isLeapYear (y : Nat) : Bool := y % 4 == 0 && (y % 100 != 0 || y % 400 == 0)

/-- Number of days in a month of a given year. -/
def daysInMonth (y m : Nat) : Nat :=
  if m = 2 then (if isLeapYear y then 29 else 28)
  else if m = 4 ∨ m = 6 ∨ m = 9 ∨ m = 11 then 30
  else 31

/-- Days in the year strictly before month `m` (1-based). -/
def daysBeforeMonth (y m : Nat) : Nat :=
  [0, 0, 31, 59, 90, 120, 151, 181, 212, 243, 273, 304, 334].getD m 0 +
    (if 2 < m && isLeapYear y then 1 else 0)

/-- Proleptic-Gregorian ordinal of a date, day 1 being 0001-01-01 (the
`datetime.date.toordinal` convention). -/
def toOrdinal (y m d : Nat) : Nat :=
  365 * (y - 1) + (y - 1) / 4 + (y - 1) / 400 - (y - 1) / 100 + daysBeforeMonth y m + d

/-- Result of `datetime.fromisoformat`, reduced to the data the grain
heuristic consumes: seconds since the Unix epoch (UTC seconds for an
offset-aware value, wall-clock seconds for a naive one) and the awareness
flag.  `719163 = toOrdinal 1970 1 1`. -/
structure PyDatetime where
  seconds : Int
  aware : Bool
deriving Repr, DecidableEq

/-- Seconds since the Unix epoch of a civil date-time (no offset applied). -/
def civilSeconds (y mo dy h mi s : Nat) : Int :=
  ((toOrdinal y mo dy : Int) - 719163) * 86400 + h * 3600 + mi * 60 + s

/-- Trailing UTC-offset part of the `fromisoformat` grammar. -/
def fromisoOffset (base : Int) : List Char → Option PyDatetime
  | [] => some ⟨base, false⟩
  | '+' :: h1 :: h2 :: ':' :: m1 :: m2 :: [] => do
    let oh ← d2 h1 h2
    let om ← d2 m1 m2
    if oh ≤ 23 ∧ om ≤ 59 then some ⟨base - (oh * 3600 + om * 60), true⟩ else none
  | '-' :: h1 :: h2 :: ':' :: m1 :: m2 :: [] => do
    let oh ← d2 h1 h2
    let om ← d2 m1 m2
    if oh ≤ 23 ∧ om ≤ 59 then some ⟨base + (oh * 3600 + om * 60), true⟩ else none
  | _ => none

/-- Time-of-day part of the `fromisoformat` grammar: `HH:MM` or `HH:MM:SS`
followed by the optional offset. -/
def fromisoTime (y mo dy : Nat) : List Char → Option PyDatetime
  | h1 :: h2 :: ':' :: mi1 :: mi2 :: rest => do
    let h ← d2 h1 h2
    let mi ← d2 mi1 mi2
    if h ≤ 23 ∧ mi ≤ 59 then
      match rest with
      | ':' :: s1 :: s2 :: rest2 => do
        let s ← d2 s1 s2
        if s ≤ 59 then fromisoOffset (civilSeconds y mo dy h mi s) rest2 else none
      | rest2 => fromisoOffset (civilSeconds y mo dy h mi 0) rest2
    else none
  | _ => none

/-- Model of `datetime.fromisoformat` on the timestamp grammar the encoder
feeds it: `YYYY-MM-DD`, optionally `T`/space separator plus `HH:MM[:SS]`
and an optional `+HH:MM`/`-HH:MM` offset; `none` models the `ValueError`
raised on anything else. -/
def fromisoformat (s : String) : Option PyDatetime :=
  match s.data with
  | y1 :: y2 :: y3 :: y4 :: '-' :: m1 :: m2 :: '-' :: a1 :: a2 :: rest => do
    let y ← d4 y1 y2 y3 y4
    let mo ← d2 m1 m2
    let dy ← d2 a1 a2
    if 1 ≤ y ∧ 1 ≤ mo ∧ mo ≤ 12 ∧ 1 ≤ dy ∧ dy ≤ daysInMonth y mo then
      match rest with
      | [] => some ⟨civilSeconds y mo dy 0 0 0, false⟩
      | sep :: t => if sep = 'T' ∨ sep = ' ' then fromisoTime y mo dy t else none
    else none
  | _ => none

/-- Python `s.replace("Z", "+00:00")` as applied by `_calculate_grain`. -/
def replaceZlist : List Char → List Char
  | [] => []
  | 'Z' :: t => '+' :: '0' :: '0' :: ':' :: '0' :: '0' :: replaceZlist t
  | c :: t => c :: replaceZlist t

/-- String wrapper around `replaceZlist`. -/
def replaceZ (s : String) : String := ⟨replaceZlist s.data⟩

/-- Decimal number denoted by a digit run. -/
def natOfDigits (ds : List Char) : Nat :=
  ds.foldl (fun acc c => 10 * acc + (c.toNat - 48)) 0

/-- `UrlBuilder._parse_iso_duration_days`: parse an ISO-8601 duration to
approximate days via `re.match(r"P(\d+)([DWMY])", s)` — a leading `P`,
a digit run, then a unit letter (D exact, W times 7, M times 30,
Y times 365); anything else yields `none`. -/
def parse_iso_duration_days (iso_duration : String) : Option Nat :=
  match iso_duration.data with
  | 'P' :: rest =>
    let ds := rest.takeWhile Char.isDigit
    if ds = [] then none
    else
      match rest.dropWhile Char.isDigit with
      | 'D' :: _ => some (natOfDigits ds)
      | 'W' :: _ => some (natOfDigits ds * 7)
      | 'M' :: _ => some (natOfDigits ds * 30)
      | 'Y' :: _ => some (natOfDigits ds * 365)
      | _ => none
  | _ => none

/-- The `UrlBuilder` configuration state set by `__init__` (the logger is
modelled by returning warning messages from `build_url`). -/
structure UrlBuilder where
  base_url : String := "https://ui.rilldata.com"
  default_org : Option String := none
  default_project : Option String := none
deriving Repr, DecidableEq

/-- Error message raised when no organization can be resolved. -/
def orgRequiredMsg : String :=
  "Organization required. Provide org parameter or set in UrlBuilder(..., org=\x27name\x27)"

/-- Error message raised when no project can be resolved. -/
def projectRequiredMsg : String :=
  "Project required. Provide project parameter or set in UrlBuilder(..., project=\x27name\x27)"

/-- Warning logged for a query carrying a `where` clause. -/
def whereWarning : String :=
  "Query contains \x27where\x27 clause which cannot be encoded in URL. Filter will not be included."

/-- Warning logged for a query carrying a `having` clause. -/
def havingWarning : String :=
  "Query contains \x27having\x27 clause which cannot be encoded in URL. Filter will not be included."

/-- Warning logged for a query carrying a `comparison_time_range`. -/
def comparisonWarning : String :=
  "Query contains \x27comparison_time_range\x27 which is ignored. Use enable_comparison parameter instead."

/-- `UrlBuilder._warn_unsupported_features`: the warning messages logged,
in order. -/
def warn_unsupported_features (query : MetricsQuery) (enable_comparison : Bool) : List String :=
  (if query.«where».isSome then [whereWarning] else []) ++
  (if query.having.isSome then [havingWarning] else []) ++
  (if query.comparison_time_range.isSome then [comparisonWarning] else [])

/-- `UrlBuilder._resolve_org_project`: `org or self.default_org`, fatal
`ValueError` when the resolved value is falsy, organization checked first. -/
def UrlBuilder.resolve_org_project (self : UrlBuilder) (org project : Option String) :
    Except PyErr (String × String) :=
  let resolved_org := pyOrStr org self.default_org
  if truthyS resolved_org = false then .error (.valueError orgRequiredMsg)
  else
    let resolved_project := pyOrStr project self.default_project
    if truthyS resolved_project = false then .error (.valueError projectRequiredMsg)
    else .ok (resolved_org.getD "", resolved_project.getD "")

/-- Python `s.split("T")[0]`: the part of `s` before the first `T`. -/
def splitT (s : String) : String := ⟨s.data.takeWhile (fun c => c ≠ 'T')⟩

/-- `UrlBuilder._build_time_range_param`: `iso_duration` first, then
`start`/`end` with time-of-day stripped and joined by `" to "`, then the
free-form `expression`, each guarded by Python truthiness. -/
def build_time_range_param (time_range : Option TimeRange) : Option String :=
  match time_range with
  | none => none
  | some tr =>
    if truthyS tr.iso_duration then tr.iso_duration
    else if truthyS tr.start && truthyS tr.«end» then
      some (splitT (tr.start.getD "") ++ " to " ++ splitT (tr.«end».getD ""))
    else if truthyS tr.expression then tr.expression
    else none

/-- `UrlBuilder._calculate_grain`: try the ISO duration (in days) first,
then the absolute `start`/`end` pair via `fromisoformat` after rewriting
`Z` to `+00:00`; a span of more than 2 days (172800 seconds) gives
`"day"`, otherwise `"hour"`; parse failures fall through to `none`.
Subtracting a naive from an aware datetime raises an uncaught
`TypeError`, which propagates. -/
def calculate_grain (time_range : Option TimeRange) : Except PyErr (Option String) :=
  match time_range with
  | none => .ok none
  | some tr =>
    let isoGrain : Option String :=
      if truthyS tr.iso_duration then
        match parse_iso_duration_days (tr.iso_duration.getD "") with
        | some days => some (if 2 < days then "day" else "hour")
        | none => none
      else none
    match isoGrain with
    | some g => .ok (some g)
    | none =>
      if truthyS tr.start && truthyS tr.«end» then
        match fromisoformat (replaceZ (tr.start.getD "")),
            fromisoformat (replaceZ (tr.«end».getD "")) with
        | some sdt, some edt =>
          if sdt.aware ≠ edt.aware then
            .error (.typeError "unsupported operand type(s): offset-naive and offset-aware datetimes")
          else
            .ok (some (if 172800 < edt.seconds - sdt.seconds then "day" else "hour"))
        | _, _ => .ok none
      else .ok none

/-- `UrlBuilder._build_comparison_param`: the fixed prior-period sentinel,
gated only by the `enable_comparison` flag. -/
def build_comparison_param (enable_comparison : Bool) : Option String :=
  if enable_comparison then some "rill-PP" else none

/-- `UrlBuilder._get_sort_params`: `(sort_dir, sort_by)` projected from the
first sort entry only; `(none, none)` when the sort list is absent or
empty. -/
def get_sort_params (query : MetricsQuery) : Option String × Option String :=
  match query.sort with
  | some (first_sort :: _) =>
    (some (if first_sort.desc then "DESC" else "ASC"), some first_sort.name)
  | _ => (none, none)

/-- `UrlBuilder._build_leaderboard_measures`: all measures when `multi`,
otherwise only the first; `none` when there are no measures. -/
def build_leaderboard_measures (measures : List String) (multi : Bool) : Option (List String) :=
  match measures, multi with
  | [], _ => none
  | ms, true => some ms
  | m :: _, false => some [m]

/-- `UrlBuilder._metrics_view_to_page_name`: hardcoded mapping; an unknown
metrics view is a fatal `ValueError` listing the known mappings. -/
def metrics_view_to_page_name (metrics_view : String) : Except PyErr String :=
  if metrics_view = "bids_metrics" then .ok "bids_explore"
  else if metrics_view = "auction_metrics" then .ok "auction_explore"
  else .error (.valueError ("Page Could Not Be Found: metrics_view \x27" ++ metrics_view ++
    "\x27 does not have a known page mapping. Known mappings: [\x27bids_metrics\x27, \x27auction_metrics\x27]"))

/-- `UrlBuilder._build_rill_url`: construct the `RillUrl` value object from
a validated query, with the pivot branch mutually exclusive with the
standard branch. -/
def UrlBuilder.build_rill_url (self : UrlBuilder) (query : MetricsQuery)
    (org project : String) (pivot multi_leaderboard_measures enable_comparison : Bool) :
    Except PyErr RillUrl := do
  if query.metrics_view = "" then
    throw (.valueError "MetricsQuery must have metrics_view field")
  let page_name ← metrics_view_to_page_name query.metrics_view
  let time_range_param := build_time_range_param query.time_range
  let (sort_dir, sort_by) := get_sort_params query
  let grain ← calculate_grain query.time_range
  let compare_tr := build_comparison_param enable_comparison
  let dimension_names : Option (List String) :=
    match query.dimensions with
    | some (d :: ds) => some ((d :: ds).map Dimension.name)
    | _ => none
  let measure_names : Option (List String) :=
    match query.measures with
    | some (m :: ms) => some ((m :: ms).map Measure.name)
    | _ => none
  let leaderboard_measures : Option (List String) :=
    match measure_names, pivot with
    | some ms, false => build_leaderboard_measures ms multi_leaderboard_measures
    | _, _ => none
  if pivot then
    return { base_url := self.base_url, org := org, project := project,
             page_type := "explore", page_name := page_name,
             time_range := time_range_param, timezone := query.time_zone,
             view := some "pivot", rows := dimension_names, cols := measure_names,
             table_mode := some "nest",
             sort_by := some (sort_by.getD ""),
             grain := grain, compare_time_range := compare_tr }
  else
    return { base_url := self.base_url, org := org, project := project,
             page_type := "explore", page_name := page_name,
             time_range := time_range_param, timezone := query.time_zone,
             measures := measure_names, dimensions := dimension_names,
             sort_dir := sort_dir, sort_by := sort_by,
             leaderboard_measures := leaderboard_measures,
             grain := grain, compare_time_range := compare_tr }

/-- `UrlBuilder.build_url` on an already-typed `MetricsQuery`: logged
warnings paired with the outcome (the fatal errors of org/project
resolution and URL building, or the `RillUrl`). -/
def UrlBuilder.build_url (self : UrlBuilder) (query : MetricsQuery)
    (org project : Option String) (pivot multi_leaderboard_measures enable_comparison : Bool) :
    List String × Except PyErr RillUrl :=
  (warn_unsupported_features query enable_comparison, do
    let (resolved_org, resolved_project) ← self.resolve_org_project org project
    self.build_rill_url query resolved_org resolved_project pivot
      multi_leaderboard_measures enable_comparison)

/-- Value stored under `start`/`end` in a caller-supplied time-range
mapping: a string, a `datetime` (carried as its `isoformat()` string), a
`date` (carried as its `YYYY-MM-DD` string), or a value of any other type
(carried as its type name, for the error message). -/
inductive TimeVal where
  | str (s : String)
  | datetime (iso : String)
  | date (ymd : String)
  | other (typeName : String)
deriving Repr, DecidableEq

/-- Caller-supplied time-range mapping for `QueryBuilder.time_range`;
`none` models an absent key. -/
structure TRDict where
  start : Option TimeVal := none
  «end» : Option TimeVal := none
  iso_duration : Option String := none
  iso_offset : Option String := none
  expression : Option String := none
  round_to_grain : Option String := none
deriving Repr, DecidableEq

/-- Error raised when none of the three time-range shapes is present. -/
def timeRangeRequiresMsg : String :=
  "Time range requires one of: (start+end), iso_duration, or expression. Examples:\n  Absolute: \x7b\"start\": \"2024-01-01\", \"end\": \"2024-01-31\"\x7d\n  Relative: \x7b\"iso_duration\": \"P7D\"\x7d\n  Expression: \x7b\"expression\": \"P7D\"\x7d"

/-- Error raised when more than one time-range shape is present. -/
def timeRangeCannotCombineMsg : String :=
  "Time range cannot combine multiple types. Use only one of: (start+end), iso_duration, or expression"

/-- Error raised when only one of `start`/`end` is present. -/
def absoluteBothMsg : String :=
  "Absolute time range requires both \x27start\x27 and \x27end\x27. Example: \x7b\"start\": \"2024-01-01\", \"end\": \"2024-01-31\"\x7d"

/-- Error raised when a `start`/`end` value has an unsupported type. -/
def startEndTypeMsg (key tyName : String) : String :=
  "\x27" ++ key ++ "\x27 must be str, datetime.datetime, or datetime.date. Got: " ++ tyName

/-- Error raised for an unknown `round_to_grain` value. -/
def invalidGrainMsg (grain : String) : String :=
  "Invalid grain \x27" ++ grain ++ "\x27. Supported: millisecond, second, minute, hour, day, week, month, quarter, year"

/-- `QueryBuilder._validate_time_range_dict`: count the number of shapes
present (`start` or `end` key, `iso_duration` key, `expression` key); zero
shapes and combined shapes are errors, then the absolute shape must have
both endpoints with `str`/`datetime`/`date` values, and `round_to_grain`
must belong to the fixed grain set. -/
def validate_time_range_dict (d : TRDict) : Except PyErr Unit := do
  let has_absolute := d.start.isSome || d.«end».isSome
  let has_duration := d.iso_duration.isSome
  let has_expression := d.expression.isSome
  let specified_count := (if has_absolute then 1 else 0) + (if has_duration then 1 else 0) +
    (if has_expression then 1 else 0)
  if specified_count = 0 then
    throw (.valueError timeRangeRequiresMsg)
  if 1 < specified_count then
    throw (.valueError timeRangeCannotCombineMsg)
  if has_absolute then
    if d.start.isNone || d.«end».isNone then
      throw (.valueError absoluteBothMsg)
    match d.start with
    | some (.other ty) => throw (.valueError (startEndTypeMsg "start" ty))
    | _ => pure ()
    match d.«end» with
    | some (.other ty) => throw (.valueError (startEndTypeMsg "end" ty))
    | _ => pure ()
  match d.round_to_grain with
  | some grain =>
    if grain = "millisecond" ∨ grain = "second" ∨ grain = "minute" ∨ grain = "hour" ∨
        grain = "day" ∨ grain = "week" ∨ grain = "month" ∨ grain = "quarter" ∨ grain = "year" then
      pure ()
    else
      throw (.valueError (invalidGrainMsg grain))
  | none => pure ()

/-- Conversion applied by `QueryBuilder._dict_to_time_range` to a
`start`/`end` value on the copied mapping: a `datetime` becomes its
`isoformat()` string, a bare `date` is anchored to midnight UTC, a string
passes through; a value of any other type is rejected downstream by the
`TimeRange` model validation. -/
def TimeVal.convert : TimeVal → Except PyErr String
  | .str s => .ok s
  | .datetime iso => .ok iso
  | .date ymd => .ok (ymd ++ "T00:00:00+00:00")
  | .other ty => .error (.valueError ("Input should be a valid string, got " ++ ty))

/-- Conversion of an optional `start`/`end` entry on the copied mapping. -/
def convOpt : Option TimeVal → Except PyErr (Option String)
  | none => .ok none
  | some tv => tv.convert.map some

/-- Conversion of the optional `round_to_grain` entry
(`TimeGrain(d["round_to_grain"])` on the copied mapping). -/
def grainOpt : Option String → Except PyErr (Option TimeGrain)
  | none => .ok none
  | some g =>
    match TimeGrain.ofString g with
    | some tg => .ok (some tg)
    | none => .error (.valueError ("\x27" ++ g ++ "\x27 is not a valid TimeGrain"))

/-- The `TimeRange` constructed by `QueryBuilder._dict_to_time_range` from
the converted copy of the mapping. -/
def dict_to_time_range (d : TRDict) : Except PyErr TimeRange :=
  match convOpt d.start with
  | .error e => .error e
  | .ok startStr =>
    match convOpt d.«end» with
    | .error e => .error e
    | .ok endStr =>
      match grainOpt d.round_to_grain with
      | .error e => .error e
      | .ok grain =>
        .ok { start := startStr, «end» := endStr, iso_duration := d.iso_duration,
              iso_offset := d.iso_offset, expression := d.expression,
              round_to_grain := grain }

/-- `QueryBuilder._dict_to_time_range` viewed as a call on the caller's
mapping: the first component is the mapping as the caller sees it after
the call (the conversions operate on `d.copy()`, so it is returned
untouched), the second is the constructed `TimeRange`. -/
def dict_to_time_range_call (d : TRDict) : TRDict × Except PyErr TimeRange :=
  (d, dict_to_time_range d)

/-- Caller-supplied filter mapping for `QueryBuilder.where`/`.having`;
`none` models an absent key and nesting happens through `conditions`. -/
inductive FilterDict where
  | mk (op : Option String) (field : Option String) (value : Option PyVal)
      (values : Option PyVal) (conditions : Option (List FilterDict)) : FilterDict

/-- Field accessor mirroring the `op` key. -/
def FilterDict.op : FilterDict → Option String
  | .mk o _ _ _ _ => o

/-- Field accessor mirroring the `field` key. -/
def FilterDict.field : FilterDict → Option String
  | .mk _ f _ _ _ => f

/-- Field accessor mirroring the `value` key. -/
def FilterDict.value : FilterDict → Option PyVal
  | .mk _ _ v _ _ => v

/-- Field accessor mirroring the `values` key. -/
def FilterDict.values : FilterDict → Option PyVal
  | .mk _ _ _ vs _ => vs

/-- Field accessor mirroring the `conditions` key. -/
def FilterDict.conditions : FilterDict → Option (List FilterDict)
  | .mk _ _ _ _ cs => cs

/-- Error raised when the `op` key is missing. -/
def missingOpMsg : String :=
  "Missing required key \x27op\x27 in filter dict. Example: \x7b\"op\": \"eq\", \"field\": \"device_type\", \"value\": \"mobile\"\x7d"

/-- Error raised for an unknown operator. -/
def invalidOperatorMsg (op : String) : String :=
  "Invalid operator \x27" ++ op ++ "\x27. Supported: eq, neq, lt, lte, gt, gte, in, nin, ilike, nilike, and, or"

/-- Error raised when an `and`/`or` mapping lacks `conditions`. -/
def provideConditionsMsg (op : String) : String :=
  "For \x27" ++ op ++ "\x27 operator, provide \x27conditions\x27 (list of dicts). Example: \x7b\"op\": \"" ++ op ++ "\", \"conditions\": [\x7b...\x7d, \x7b...\x7d]\x7d"

/-- Error raised when a comparison or membership mapping lacks `field`. -/
def missingFieldMsg (op : String) : String :=
  "Missing \x27field\x27 key for \x27" ++ op ++ "\x27 operator"

/-- Error raised when an `in`/`nin` mapping lacks `values` (the guard for
the common `value`-instead-of-`values` mistake). -/
def useValuesMsg (op : String) : String :=
  "For \x27" ++ op ++ "\x27 operator, use \x27values\x27 (list) not \x27value\x27. Example: \x7b\"op\": \"" ++ op ++ "\", \"field\": \"region\", \"values\": [\"US\", \"GB\"]\x7d"

/-- Error raised when a comparison mapping lacks `value`. -/
def missingValueMsg (op : String) : String :=
  "Missing \x27value\x27 key for \x27" ++ op ++ "\x27 operator. Example: \x7b\"op\": \"" ++ op ++ "\", \"field\": \"clicks\", \"value\": 100\x7d"

mutual
/-- `QueryBuilder._validate_where_dict`: `op` must be present and known;
`and`/`or` need `conditions` (validated recursively); `in`/`nin` need
`field` and `values` (with the dedicated `values`-not-`value` message);
all other operators need `field` and `value`.  (The `conditions`-is-a-list
check of the source holds by typing here.) -/
def validate_where_dict : FilterDict → Except PyErr Unit
  | .mk none _ _ _ _ => .error (.valueError missingOpMsg)
  | .mk (some op) field value values conditions =>
    if ¬(op = "eq" ∨ op = "neq" ∨ op = "lt" ∨ op = "lte" ∨ op = "gt" ∨ op = "gte" ∨
        op = "in" ∨ op = "nin" ∨ op = "ilike" ∨ op = "nilike" ∨ op = "and" ∨ op = "or") then
      .error (.valueError (invalidOperatorMsg op))
    else if op = "and" ∨ op = "or" then
      match conditions with
      | none => .error (.valueError (provideConditionsMsg op))
      | some cs => validate_where_conditions cs
    else if op = "in" ∨ op = "nin" then
      match field with
      | none => .error (.valueError (missingFieldMsg op))
      | some _ =>
        match values with
        | none => .error (.valueError (useValuesMsg op))
        | some _ => .ok ()
    else
      match field with
      | none => .error (.valueError (missingFieldMsg op))
      | some _ =>
        match value with
        | none => .error (.valueError (missingValueMsg op))
        | some _ => .ok ()
/-- Recursive validation of the nested `conditions` of an `and`/`or`
mapping, in order, stopping at the first failure. -/
def validate_where_conditions : List FilterDict → Except PyErr Unit
  | [] => .ok ()
  | c :: cs => do
    validate_where_dict c
    validate_where_conditions cs
end

mutual
/-- `QueryBuilder._dict_to_expression`: compile a validated filter mapping
into the `Expression` AST; operand order is field reference first, then
the literal. -/
def dict_to_expression : FilterDict → Except PyErr Expression
  | .mk op field value values conditions => do
    let op_str ← match op with
      | some s => pure s
      | none => throw (.keyError "op")
    let o ← match Operator.ofString op_str with
      | some o => pure o
      | none => throw (.valueError ("\x27" ++ op_str ++ "\x27 is not a valid Operator"))
    if o = .«and» ∨ o = .«or» then
      match conditions with
      | some cs => do
        let exprs ← dict_to_expression_conditions cs
        pure (Expression.mk none none (some (Condition.mk o (some exprs))) none)
      | none => throw (.keyError "conditions")
    else if o = .«in» ∨ o = .nin then
      match field with
      | none => throw (.keyError "field")
      | some f =>
        match values with
        | none => throw (.keyError "values")
        | some vs =>
          pure (Expression.mk none none
            (some (Condition.mk o (some [Expression.mk (some f) none none none,
                                          Expression.mk none (some vs) none none]))) none)
    else
      match field with
      | none => throw (.keyError "field")
      | some f =>
        match value with
        | none => throw (.keyError "value")
        | some v =>
          pure (Expression.mk none none
            (some (Condition.mk o (some [Expression.mk (some f) none none none,
                                          Expression.mk none (some v) none none]))) none)
/-- Compilation of the nested `conditions` of an `and`/`or` mapping. -/
def dict_to_expression_conditions : List FilterDict → Except PyErr (List Expression)
  | [] => pure []
  | c :: cs => do
    let e ← dict_to_expression c
    let es ← dict_to_expression_conditions cs
    pure (e :: es)
end

/-- Entry of the `QueryBuilder._dimensions` accumulator
(`Union[str, Dimension]`). -/
inductive StrOrDimension where
  | str (s : String)
  | dim (d : Dimension)

/-- Entry of the `QueryBuilder._measures` accumulator
(`Union[str, Measure]`). -/
inductive StrOrMeasure where
  | str (s : String)
  | meas (m : Measure)

/-- Mutable accumulator state of `QueryBuilder` as set by `__init__`. -/
structure QueryBuilder where
  _metrics_view : Option String := none
  _dimensions : List StrOrDimension := []
  _measures : List StrOrMeasure := []
  _where : Option Expression := none
  _having : Option Expression := none
  _time_range : Option TimeRange := none
  _comparison_time_range : Option TimeRange := none
  _sorts : List Sort' := []
  _limit : Option Int := none
  _offset : Option Int := none
  _pivot_on : Option (List String) := none
  _time_zone : Option String := none
  _use_display_names : Option Bool := none

/-- `QueryBuilder.where`: validate, then compile and assign `_where`.  The
returned pair is the builder state after the call and the outcome; on a
validation error nothing has been assigned. -/
def QueryBuilder.«where» (self : QueryBuilder) (filter_dict : FilterDict) :
    QueryBuilder × Except PyErr Unit :=
  match validate_where_dict filter_dict with
  | .error e => (self, .error e)
  | .ok _ =>
    match dict_to_expression filter_dict with
    | .error e => (self, .error e)
    | .ok expr => ({ self with _where := some expr }, .ok ())

/-- `QueryBuilder.having`: validate, then compile and assign `_having`. -/
def QueryBuilder.having (self : QueryBuilder) (having_dict : FilterDict) :
    QueryBuilder × Except PyErr Unit :=
  match validate_where_dict having_dict with
  | .error e => (self, .error e)
  | .ok _ =>
    match dict_to_expression having_dict with
    | .error e => (self, .error e)
    | .ok expr => ({ self with _having := some expr }, .ok ())

/-- `QueryBuilder.time_range`: validate, then convert and assign
`_time_range`.  Components of the result: builder state after the call,
the caller's mapping after the call, outcome. -/
def QueryBuilder.time_range (self : QueryBuilder) (range_dict : TRDict) :
    QueryBuilder × TRDict × Except PyErr Unit :=
  match validate_time_range_dict range_dict with
  | .error e => (self, range_dict, .error e)
  | .ok _ =>
    let (d_after, r) := dict_to_time_range_call range_dict
    match r with
    | .error e => (self, d_after, .error e)
    | .ok tr => ({ self with _time_range := some tr }, d_after, .ok ())

/-- `QueryBuilder.comparison_time_range`: validate, then convert and
assign `_comparison_time_range`. -/
def QueryBuilder.comparison_time_range (self : QueryBuilder) (range_dict : TRDict) :
    QueryBuilder × TRDict × Except PyErr Unit :=
  match validate_time_range_dict range_dict with
  | .error e => (self, range_dict, .error e)
  | .ok _ =>
    let (d_after, r) := dict_to_time_range_call range_dict
    match r with
    | .error e => (self, d_after, .error e)
    | .ok tr => ({ self with _comparison_time_range := some tr }, d_after, .ok ())

deriving instance DecidableEq for Except

/-- A predicate-satisfying block followed by a failing element is exactly
what `takeWhile` keeps. -/
theorem takeWhile_block {α} (p : α → Bool) (ds : List α) (x : α) (rest : List α)
    (hall : ∀ c ∈ ds, p c) (hx : p x = false) :
    (ds ++ x :: rest).takeWhile p = ds ∧ (ds ++ x :: rest).dropWhile p = x :: rest := by
  induction ds with
  | nil => simp [List.takeWhile, List.dropWhile, hx]
  | cons a t ih =>
    have ha : p a = true := hall a (by simp)
    have ht : ∀ c ∈ t, p c = true := fun c hc => hall c (by simp [hc])
    obtain ⟨ih1, ih2⟩ := ih ht
    simp [List.takeWhile, List.dropWhile, ha, ih1, ih2]

/-- Membership description for a string-valued parameter entry. -/
theorem mem_addS {k n v : String} {o : Option String} :
    (k, v) ∈ addS n o ↔ k = n ∧ o = some v ∧ v ≠ "" := by
  cases o with
  | none => simp [addS]
  | some s =>
    by_cases h : s = "" <;> simp [addS, h] <;> aesop

/-- Membership description for a list-valued parameter entry. -/
theorem mem_addL {k v : String} {n : String} {o : Option (List String)} :
    (k, v) ∈ addL n o ↔ k = n ∧ ∃ l, o = some l ∧ l ≠ [] ∧ v = String.intercalate "," l := by
  cases o with
  | none => simp [addL]
  | some l =>
    by_cases h : l = [] <;> simp [addL, h]

/-- The `tr` parameter appears exactly when the `time_range` field is a
non-empty string. -/
theorem params_tr (u : RillUrl) (v : String) :
    ("tr", v) ∈ u.params ↔ u.time_range = some v ∧ v ≠ "" := by
  simp [RillUrl.params, mem_addS, mem_addL]

/-- The `sort_dir` parameter appears exactly when the `sort_dir` field is a
non-empty string. -/
theorem params_sort_dir (u : RillUrl) (v : String) :
    ("sort_dir", v) ∈ u.params ↔ u.sort_dir = some v ∧ v ≠ "" := by
  simp [RillUrl.params, mem_addS, mem_addL]

/-- The `sort_by` parameter appears exactly when the `sort_by` field is a
non-empty string. -/
theorem params_sort_by (u : RillUrl) (v : String) :
    ("sort_by", v) ∈ u.params ↔ u.sort_by = some v ∧ v ≠ "" := by
  simp [RillUrl.params, mem_addS, mem_addL]

/-- The `grain` parameter appears exactly when the `grain` field is a
non-empty string. -/
theorem params_grain (u : RillUrl) (v : String) :
    ("grain", v) ∈ u.params ↔ u.grain = some v ∧ v ≠ "" := by
  simp [RillUrl.params, mem_addS, mem_addL]

/-- The `compare_tr` parameter appears exactly when the
`compare_time_range` field is a non-empty string. -/
theorem params_compare_tr (u : RillUrl) (v : String) :
    ("compare_tr", v) ∈ u.params ↔ u.compare_time_range = some v ∧ v ≠ "" := by
  simp [RillUrl.params, mem_addS, mem_addL]

/-- The `view` parameter appears exactly when the `view` field is a
non-empty string. -/
theorem params_view (u : RillUrl) (v : String) :
    ("view", v) ∈ u.params ↔ u.view = some v ∧ v ≠ "" := by
  simp [RillUrl.params, mem_addS, mem_addL]

/-- The `table_mode` parameter appears exactly when the `table_mode` field
is a non-empty string. -/
theorem params_table_mode (u : RillUrl) (v : String) :
    ("table_mode", v) ∈ u.params ↔ u.table_mode = some v ∧ v ≠ "" := by
  simp [RillUrl.params, mem_addS, mem_addL]

/-- The `measures` parameter appears exactly when the `measures` field is a
non-empty list, holding the comma-joined names. -/
theorem params_measures (u : RillUrl) (v : String) :
    ("measures", v) ∈ u.params ↔
      ∃ l, u.measures = some l ∧ l ≠ [] ∧ v = String.intercalate "," l := by
  simp [RillUrl.params, mem_addS, mem_addL]

/-- The `dims` parameter appears exactly when the `dimensions` field is a
non-empty list, holding the comma-joined names. -/
theorem params_dims (u : RillUrl) (v : String) :
    ("dims", v) ∈ u.params ↔
      ∃ l, u.dimensions = some l ∧ l ≠ [] ∧ v = String.intercalate "," l := by
  simp [RillUrl.params, mem_addS, mem_addL]

/-- The `leaderboard_measures` parameter appears exactly when the
`leaderboard_measures` field is a non-empty list. -/
theorem params_leaderboard (u : RillUrl) (v : String) :
    ("leaderboard_measures", v) ∈ u.params ↔
      ∃ l, u.leaderboard_measures = some l ∧ l ≠ [] ∧ v = String.intercalate "," l := by
  simp [RillUrl.params, mem_addS, mem_addL]

/-- The `rows` parameter appears exactly when the `rows` field is a
non-empty list. -/
theorem params_rows (u : RillUrl) (v : String) :
    ("rows", v) ∈ u.params ↔
      ∃ l, u.rows = some l ∧ l ≠ [] ∧ v = String.intercalate "," l := by
  simp [RillUrl.params, mem_addS, mem_addL]

/-- The `cols` parameter appears exactly when the `cols` field is a
non-empty list. -/
theorem params_cols (u : RillUrl) (v : String) :
    ("cols", v) ∈ u.params ↔
      ∃ l, u.cols = some l ∧ l ≠ [] ∧ v = String.intercalate "," l := by
  simp [RillUrl.params, mem_addS, mem_addL]


/-- Reduction of `Except` bind on a success value. -/
theorem except_bind_ok {ε α β} (a : α) (f : α → Except ε β) :
    (Except.ok a >>= f) = f a := rfl

/-- Reduction of `Except` bind on an error value. -/
theorem except_bind_err {ε α β} (e : ε) (f : α → Except ε β) :
    ((Except.error e : Except ε α) >>= f) = .error e := rfl

/-- `throw` on `Except` is `Except.error`. -/
theorem except_throw {ε α} (e : ε) : (throw e : Except ε α) = .error e := rfl

/-- `pure` on `Except` is `Except.ok`. -/
theorem except_pure {ε α} (a : α) : (pure a : Except ε α) = .ok a := rfl

/-- The truthiness-guarded dimension-name projection of `_build_rill_url`
(`[d.name for d in query.dimensions] if query.dimensions else None`). -/
def dimension_names (query : MetricsQuery) : Option (List String) :=
  match query.dimensions with
  | some (d :: ds) => some ((d :: ds).map Dimension.name)
  | _ => none

/-- The truthiness-guarded measure-name projection of `_build_rill_url`. -/
def measure_names (query : MetricsQuery) : Option (List String) :=
  match query.measures with
  | some (m :: ms) => some ((m :: ms).map Measure.name)
  | _ => none

/-- The leaderboard-measure projection of `_build_rill_url` (populated
only in the non-pivot branch when measures are present). -/
def leaderboard_of (query : MetricsQuery) (pivot multi : Bool) : Option (List String) :=
  match measure_names query, pivot with
  | some ms, false => build_leaderboard_measures ms multi
  | _, _ => none

/-- The `RillUrl` record that `_build_rill_url` assembles once the page
name and the grain have been computed (both branches of the pivot split). -/
def urlOf (b : UrlBuilder) (query : MetricsQuery) (org project : String)
    (pivot multi_leaderboard_measures enable_comparison : Bool)
    (page_name : String) (grain : Option String) : RillUrl :=
  if pivot then
    { base_url := b.base_url, org := org, project := project,
      page_type := "explore", page_name := page_name,
      time_range := build_time_range_param query.time_range, timezone := query.time_zone,
      view := some "pivot", rows := dimension_names query, cols := measure_names query,
      table_mode := some "nest",
      sort_by := some ((get_sort_params query).2.getD ""),
      grain := grain, compare_time_range := build_comparison_param enable_comparison }
  else
    { base_url := b.base_url, org := org, project := project,
      page_type := "explore", page_name := page_name,
      time_range := build_time_range_param query.time_range, timezone := query.time_zone,
      measures := measure_names query, dimensions := dimension_names query,
      sort_dir := (get_sort_params query).1, sort_by := (get_sort_params query).2,
      leaderboard_measures := leaderboard_of query pivot multi_leaderboard_measures,
      grain := grain, compare_time_range := build_comparison_param enable_comparison }

/-- Evaluation of `_build_rill_url`: empty metrics view and page-lookup /
grain errors propagate, and otherwise the result is the `urlOf` record. -/
theorem build_rill_url_eq (b : UrlBuilder) (query : MetricsQuery) (org project : String)
    (pivot multi_leaderboard_measures enable_comparison : Bool) :
    b.build_rill_url query org project pivot multi_leaderboard_measures enable_comparison =
      if query.metrics_view = "" then
        .error (.valueError "MetricsQuery must have metrics_view field")
      else
        match metrics_view_to_page_name query.metrics_view with
        | .error e => .error e
        | .ok page_name =>
          match calculate_grain query.time_range with
          | .error e => .error e
          | .ok grain =>
            .ok (urlOf b query org project pivot multi_leaderboard_measures enable_comparison
              page_name grain) := by
  by_cases hmv : query.metrics_view = ""
  · simp only [UrlBuilder.build_rill_url, hmv, if_true, ite_true, except_throw, except_bind_err]
  · cases hpn : metrics_view_to_page_name query.metrics_view with
    | error e =>
      simp only [UrlBuilder.build_rill_url, urlOf, hmv, ite_false, if_false, except_pure,
        except_bind_ok, hpn, except_bind_err]
    | ok pn =>
      cases hg : calculate_grain query.time_range with
      | error e =>
        simp only [UrlBuilder.build_rill_url, urlOf, hmv, ite_false, if_false, except_pure,
          except_bind_ok, hpn, hg, except_bind_err]
      | ok g =>
        cases pivot <;>
          simp only [UrlBuilder.build_rill_url, urlOf, dimension_names, measure_names,
            leaderboard_of, hmv, ite_false, if_false, except_pure,
            except_bind_ok, hpn, hg, Bool.false_eq_true, ite_true, ite_false]

/-- The warnings component of `build_url` is exactly
`warn_unsupported_features`. -/
theorem build_url_fst (b : UrlBuilder) (q : MetricsQuery) (org proj : Option String)
    (pv ml ec : Bool) :
    (b.build_url q org proj pv ml ec).1 = warn_unsupported_features q ec := rfl

/-- The outcome component of `build_url` is org/project resolution bound
into `_build_rill_url`. -/
theorem build_url_snd (b : UrlBuilder) (q : MetricsQuery) (org proj : Option String)
    (pv ml ec : Bool) :
    (b.build_url q org proj pv ml ec).2 =
      (b.resolve_org_project org proj >>= fun rp =>
        b.build_rill_url q rp.1 rp.2 pv ml ec) := by
  show (b.resolve_org_project org proj >>= fun rp =>
    match rp with
    | (ro, rp') => b.build_rill_url q ro rp' pv ml ec) = _
  cases b.resolve_org_project org proj with
  | error e => rfl
  | ok rp => rfl

/-- Inversion for a successful `build_url`: the resolution succeeded, the
page lookup and the grain computation succeeded, and the URL is the
`urlOf` record built over the resolved identifiers. -/
theorem build_url_ok_elim (b : UrlBuilder) (q : MetricsQuery) (org proj : Option String)
    (pv ml ec : Bool) (u : RillUrl)
    (h : (b.build_url q org proj pv ml ec).2 = .ok u) :
    ∃ ro rp pn g, b.resolve_org_project org proj = .ok (ro, rp) ∧
      q.metrics_view ≠ "" ∧ metrics_view_to_page_name q.metrics_view = .ok pn ∧
      calculate_grain q.time_range = .ok g ∧
      u = urlOf b q ro rp pv ml ec pn g := by
  rw [build_url_snd] at h
  cases hro : b.resolve_org_project org proj with
  | error e => rw [hro, except_bind_err] at h; exact absurd h (by simp)
  | ok rp =>
    rw [hro, except_bind_ok, build_rill_url_eq] at h
    by_cases hmv : q.metrics_view = ""
    · rw [if_pos hmv] at h; exact absurd h (by simp)
    · rw [if_neg hmv] at h
      cases hpn : metrics_view_to_page_name q.metrics_view with
      | error e => rw [hpn] at h; exact absurd h (by simp)
      | ok pn =>
        rw [hpn] at h
        cases hg : calculate_grain q.time_range with
        | error e => rw [hg] at h; exact absurd h (by simp)
        | ok g =>
          rw [hg] at h
          exact ⟨rp.1, rp.2, pn, g, rfl, hmv, rfl, rfl, (Except.ok.inj h).symm⟩

/-- Reduction of `Except.bind` on a success value. -/
theorem except_bind_ok' {ε α β} (a : α) (f : α → Except ε β) :
    Except.bind (Except.ok a) f = f a := rfl

/-- Reduction of `Except.bind` on an error value. -/
theorem except_bind_err' {ε α β} (e : ε) (f : α → Except ε β) :
    Except.bind (Except.error e) f = .error e := rfl

/-- Inversion of a successful `Except` bind. -/
theorem except_ok_of_bind {ε α β} {x : Except ε α} {f : α → Except ε β} {b : β}
    (h : x >>= f = .ok b) : ∃ a, x = .ok a ∧ f a = .ok b := by
  cases x with
  | error e => exact absurd h (by simp [except_bind_err])
  | ok a => exact ⟨a, rfl, by rw [except_bind_ok] at h; exact h⟩

/-- Claim C9: `QueryBuilder.time_range` and
`QueryBuilder.comparison_time_range` never mutate the caller's mapping —
the conversion operates on a copy, so the mapping seen by the caller after
the call is the one passed in — while `datetime` values are normalized to
their ISO-8601 strings and bare dates are anchored to midnight UTC in the
constructed `TimeRange`. -/
theorem C9_time_range_input_not_mutated :
    ∀ (qb : QueryBuilder) (d : TRDict),
      (dict_to_time_range_call d).1 = d ∧
      (qb.time_range d).2.1 = d ∧
      (qb.comparison_time_range d).2.1 = d ∧
      (∀ tr, dict_to_time_range d = .ok tr →
        (∀ ymd, d.start = some (.date ymd) → tr.start = some (ymd ++ "T00:00:00+00:00")) ∧
        (∀ iso, d.start = some (.datetime iso) → tr.start = some iso) ∧
        (∀ s, d.start = some (.str s) → tr.start = some s) ∧
        (∀ ymd, d.«end» = some (.date ymd) → tr.«end» = some (ymd ++ "T00:00:00+00:00")) ∧
        (∀ iso, d.«end» = some (.datetime iso) → tr.«end» = some iso) ∧
        (∀ s, d.«end» = some (.str s) → tr.«end» = some s)) := by
  intro qb d
  refine ⟨rfl, ?_, ?_, ?_⟩
  · cases hv : validate_time_range_dict d with
    | error e => simp [QueryBuilder.time_range, hv]
    | ok u =>
      cases hr : dict_to_time_range d with
      | error e => simp [QueryBuilder.time_range, hv, dict_to_time_range_call, hr]
      | ok tr => simp [QueryBuilder.time_range, hv, dict_to_time_range_call, hr]
  · cases hv : validate_time_range_dict d with
    | error e => simp [QueryBuilder.comparison_time_range, hv]
    | ok u =>
      cases hr : dict_to_time_range d with
      | error e => simp [QueryBuilder.comparison_time_range, hv, dict_to_time_range_call, hr]
      | ok tr => simp [QueryBuilder.comparison_time_range, hv, dict_to_time_range_call, hr]
  · intro tr htr
    unfold dict_to_time_range at htr
    cases hs : convOpt d.start with
    | error e => rw [hs] at htr; exact absurd htr (by simp)
    | ok s0 =>
      rw [hs] at htr
      cases he : convOpt d.«end» with
      | error e => rw [he] at htr; exact absurd htr (by simp)
      | ok e0 =>
        rw [he] at htr
        cases hg : grainOpt d.round_to_grain with
        | error e => rw [hg] at htr; exact absurd htr (by simp)
        | ok g0 =>
          rw [hg] at htr
          have htr' := (Except.ok.inj htr).symm
          subst htr'
          refine ⟨?_, ?_, ?_, ?_, ?_, ?_⟩ <;> intro x hx
          · rw [hx] at hs
            simp only [convOpt, TimeVal.convert, Except.map, Except.ok.injEq] at hs
            simp [← hs]
          · rw [hx] at hs
            simp only [convOpt, TimeVal.convert, Except.map, Except.ok.injEq] at hs
            simp [← hs]
          · rw [hx] at hs
            simp only [convOpt, TimeVal.convert, Except.map, Except.ok.injEq] at hs
            simp [← hs]
          · rw [hx] at he
            simp only [convOpt, TimeVal.convert, Except.map, Except.ok.injEq] at he
            simp [← he]
          · rw [hx] at he
            simp only [convOpt, TimeVal.convert, Except.map, Except.ok.injEq] at he
            simp [← he]
          · rw [hx] at he
            simp only [convOpt, TimeVal.convert, Except.map, Except.ok.injEq] at he
            simp [← he]

/-- Concrete mapping exercising the date/datetime conversions of claim C9. -/
def c9d : TRDict :=
  { start := some (.date "2024-01-01"), «end» := some (.datetime "2024-01-31T12:00:00+00:00") }

/-- Concrete `TimeRange` produced from `c9d`. -/
def c9tr : TimeRange :=
  { start := some "2024-01-01T00:00:00+00:00", «end» := some "2024-01-31T12:00:00+00:00" }

/-- Witness for claim C9 at a concrete mapping holding a bare date and a
datetime. -/
theorem C9_witness :
    dict_to_time_range c9d = .ok c9tr ∧
    (QueryBuilder.time_range { } c9d).2.1 = c9d ∧
    c9tr.start = some "2024-01-01T00:00:00+00:00" ∧
    c9tr.«end» = some "2024-01-31T12:00:00+00:00" :=
  ⟨by decide, (C9_time_range_input_not_mutated { } c9d).2.1,
    ((C9_time_range_input_not_mutated { } c9d).2.2.2 c9tr (by decide)).1 "2024-01-01" rfl,
    (((C9_time_range_input_not_mutated { } c9d).2.2.2 c9tr (by decide)).2.2.2.2.1
      "2024-01-31T12:00:00+00:00" rfl)⟩

/-- Claim C10: the four fallible `QueryBuilder` setters are atomic on
validation failure — validation runs before any assignment, so a call that
raises leaves the accumulated builder state (and, for the time-range
setters, the caller's mapping) exactly as it was. -/
theorem C10_setters_atomic_on_validation_failure :
    ∀ (qb : QueryBuilder) (fd : FilterDict) (td : TRDict) (e e' : PyErr),
      (validate_where_dict fd = .error e →
        qb.«where» fd = (qb, .error e) ∧ qb.having fd = (qb, .error e)) ∧
      (validate_time_range_dict td = .error e' →
        qb.time_range td = (qb, td, .error e') ∧
        qb.comparison_time_range td = (qb, td, .error e')) := by
  intro qb fd td e e'
  constructor
  · intro h
    constructor <;> simp [QueryBuilder.«where», QueryBuilder.having, h]
  · intro h
    constructor <;> simp [QueryBuilder.time_range, QueryBuilder.comparison_time_range, h]

/-- A builder with accumulated state, for the C10 witness. -/
def qb10 : QueryBuilder :=
  { _where := some (Expression.mk (some "device_type") none none none),
    _time_range := some { iso_duration := some "P7D" } }

/-- Witness for claim C10: an op-less filter mapping and an empty
time-range mapping each fail validation and leave the builder unchanged. -/
theorem C10_witness :
    validate_where_dict (FilterDict.mk none none none none none) =
      .error (.valueError missingOpMsg) ∧
    validate_time_range_dict { } = .error (.valueError timeRangeRequiresMsg) ∧
    QueryBuilder.«where» qb10 (FilterDict.mk none none none none none) =
      (qb10, .error (.valueError missingOpMsg)) ∧
    qb10.time_range { } = (qb10, { }, .error (.valueError timeRangeRequiresMsg)) :=
  ⟨rfl, rfl,
    ((C10_setters_atomic_on_validation_failure qb10 (FilterDict.mk none none none none none)
      { } (.valueError missingOpMsg) (.valueError timeRangeRequiresMsg)).1 rfl).1,
    ((C10_setters_atomic_on_validation_failure qb10 (FilterDict.mk none none none none none)
      { } (.valueError missingOpMsg) (.valueError timeRangeRequiresMsg)).2 rfl).1⟩

/-- Claim C5: a time-range mapping specifying more than one of the three
shapes — absolute (a `start` or `end` key), `iso_duration`, `expression` —
always fails validation with the "cannot combine" error, and one
specifying none of them always fails with the "requires one of" error; the
`time_range` and `comparison_time_range` setters surface exactly these
validation errors. -/
theorem C5_time_range_shape_validation :
    ∀ (d : TRDict) (qb : QueryBuilder),
      (d.start = none → d.«end» = none → d.iso_duration = none → d.expression = none →
        validate_time_range_dict d = .error (.valueError timeRangeRequiresMsg)) ∧
      ((d.start.isSome ∨ d.«end».isSome) → d.iso_duration.isSome →
        validate_time_range_dict d = .error (.valueError timeRangeCannotCombineMsg)) ∧
      ((d.start.isSome ∨ d.«end».isSome) → d.expression.isSome →
        validate_time_range_dict d = .error (.valueError timeRangeCannotCombineMsg)) ∧
      (d.iso_duration.isSome → d.expression.isSome →
        validate_time_range_dict d = .error (.valueError timeRangeCannotCombineMsg)) ∧
      containsStr timeRangeRequiresMsg "requires one of" = true ∧
      containsStr timeRangeCannotCombineMsg "cannot combine" = true ∧
      (∀ e, validate_time_range_dict d = .error e →
        qb.time_range d = (qb, d, .error e) ∧
        qb.comparison_time_range d = (qb, d, .error e)) := by
  intro d qb
  refine ⟨?_, ?_, ?_, ?_, by decide, by decide, ?_⟩
  · intro h1 h2 h3 h4
    simp [validate_time_range_dict, h1, h2, h3, h4, except_throw, except_bind_err,
      except_bind_err', except_bind_ok, except_bind_ok', except_pure]
  · intro hab hdur
    by_cases hex : d.expression.isSome <;> rcases hab with hab | hab <;>
      simp [validate_time_range_dict, hab, hdur, hex, except_throw, except_bind_err,
        except_bind_err', except_bind_ok, except_bind_ok', except_pure]
  · intro hab hex
    by_cases hdur : d.iso_duration.isSome <;> rcases hab with hab | hab <;>
      simp [validate_time_range_dict, hab, hdur, hex, except_throw, except_bind_err,
        except_bind_err', except_bind_ok, except_bind_ok', except_pure]
  · intro hdur hex
    by_cases hs : d.start.isSome <;> by_cases he : d.«end».isSome <;>
      simp [validate_time_range_dict, hs, he, hdur, hex, except_throw, except_bind_err,
        except_bind_err', except_bind_ok, except_bind_ok', except_pure]
  · intro e he
    constructor <;> simp [QueryBuilder.time_range, QueryBuilder.comparison_time_range, he]

/-- Witness for claim C5: an empty mapping gives the "requires one of"
error, combining `iso_duration` with `expression` gives the "cannot
combine" error, and the setter surfaces the error unchanged. -/
theorem C5_witness :
    validate_time_range_dict { } = .error (.valueError timeRangeRequiresMsg) ∧
    validate_time_range_dict { iso_duration := some "P7D", expression := some "P7D" } =
      .error (.valueError timeRangeCannotCombineMsg) ∧
    QueryBuilder.time_range { } { } = ({ }, { }, .error (.valueError timeRangeRequiresMsg)) :=
  ⟨(C5_time_range_shape_validation { } { }).1 rfl rfl rfl rfl,
    (C5_time_range_shape_validation { iso_duration := some "P7D", expression := some "P7D" }
      { }).2.2.2.1 rfl rfl,
    ((C5_time_range_shape_validation { } { }).2.2.2.2.2.2 (.valueError timeRangeRequiresMsg)
      ((C5_time_range_shape_validation { } { }).1 rfl rfl rfl rfl)).1⟩

/-- Counterexample to claim C6 as stated: the mapping
`{op: "in", value: "US"}` supplies the singular `value` and not `values`,
yet the raised validation error is the missing-`field` error, whose
message does not mention `values` (the `values` guard is only reached when
`field` is present). -/
theorem C6_counterexample :
    validate_where_dict (.mk (some "in") none (some (.str "US")) none none) =
      .error (.valueError (missingFieldMsg "in")) ∧
    QueryBuilder.«where» { } (.mk (some "in") none (some (.str "US")) none none) =
      ({ }, .error (.valueError (missingFieldMsg "in"))) ∧
    containsStr (missingFieldMsg "in") "values" = false := by
  refine ⟨rfl, rfl, by decide⟩

/-- Claim C6 (amended): for every `in`/`nin` filter mapping that supplies
`field` together with the singular `value` key but not `values`,
`QueryBuilder.where` and `.having` raise the dedicated validation error
whose message mentions `values` and never compile the mapping; when
`field` is missing as well, the raised error instead reports the missing
`field`, but the mapping is still rejected and never compiled. -/
theorem C6_in_nin_values_guard :
    ∀ (op : String) (qb : QueryBuilder) (f : String) (value : Option PyVal)
      (conditions : Option (List FilterDict)),
      op = "in" ∨ op = "nin" →
      (validate_where_dict (.mk (some op) (some f) value none conditions) =
          .error (.valueError (useValuesMsg op)) ∧
        containsStr (useValuesMsg op) "values" = true ∧
        qb.«where» (.mk (some op) (some f) value none conditions) =
          (qb, .error (.valueError (useValuesMsg op))) ∧
        qb.having (.mk (some op) (some f) value none conditions) =
          (qb, .error (.valueError (useValuesMsg op)))) ∧
      (∀ fd : FilterDict, fd.op = some op → fd.values = none →
        ∃ e, qb.«where» fd = (qb, .error e) ∧ qb.having fd = (qb, .error e)) := by
  intro op qb f value conditions hop
  have hval : ∀ (fl : Option String) (v : Option PyVal) (cs : Option (List FilterDict)),
      ∃ e, validate_where_dict (.mk (some op) fl v none cs) = .error e ∧
        (fl.isSome → e = .valueError (useValuesMsg op)) := by
    intro fl v cs
    rcases hop with h | h <;> subst h <;> cases fl with
    | none => exact ⟨.valueError (missingFieldMsg _), rfl, by simp⟩
    | some f' => exact ⟨.valueError (useValuesMsg _), rfl, fun _ => rfl⟩
  constructor
  · obtain ⟨e, he, hif⟩ := hval (some f) value conditions
    have he' : e = .valueError (useValuesMsg op) := hif rfl
    subst he'
    refine ⟨he, ?_, ?_, ?_⟩
    · rcases hop with h | h <;> subst h <;> decide
    · simp [QueryBuilder.«where», he]
    · simp [QueryBuilder.having, he]
  · rintro ⟨o, fl, v, vs, cs⟩ hfo hfvs
    simp only [FilterDict.op] at hfo
    simp only [FilterDict.values] at hfvs
    subst hfo hfvs
    obtain ⟨e, he, _⟩ := hval fl v cs
    exact ⟨e, by simp [QueryBuilder.«where», he], by simp [QueryBuilder.having, he]⟩

/-- Witness for (amended) claim C6 at the mapping
`{op: "in", field: "region", value: "US"}`. -/
theorem C6_witness :
    validate_where_dict (.mk (some "in") (some "region") (some (.str "US")) none none) =
      .error (.valueError (useValuesMsg "in")) ∧
    containsStr (useValuesMsg "in") "values" = true ∧
    QueryBuilder.«where» { } (.mk (some "in") (some "region") (some (.str "US")) none none) =
      ({ }, .error (.valueError (useValuesMsg "in"))) :=
  ⟨((C6_in_nin_values_guard "in" { } "region" (some (.str "US")) none (Or.inl rfl)).1).1,
    ((C6_in_nin_values_guard "in" { } "region" (some (.str "US")) none (Or.inl rfl)).1).2.1,
    ((C6_in_nin_values_guard "in" { } "region" (some (.str "US")) none (Or.inl rfl)).1).2.2.1⟩

/-- Counterexample to claim C3 as stated: with both the organization and
the project absent (no parameter, no default), the fatal error names only
the organization — the message contains no mention of the project, because
the organization check runs first. -/
theorem C3_counterexample :
    (UrlBuilder.build_url { } { metrics_view := "bids_metrics" } none none false true false).2 =
      .error (.valueError orgRequiredMsg) ∧
    containsStr orgRequiredMsg "Organization" = true ∧
    containsStr orgRequiredMsg "project" = false ∧
    containsStr orgRequiredMsg "Project" = false := by
  refine ⟨rfl, by decide, by decide, by decide⟩

/-- Claim C3 (amended): when the organization resolves to nothing (no
truthy parameter and no truthy default), `build_url` fails before
producing any URL with a fatal error naming the organization — also when
the project is missing too, since the organization is checked first; when
the organization resolves but the project does not, the error names the
project; a truthy explicit parameter always overrides the builder
default. -/
theorem C3_org_project_resolution :
    ∀ (b : UrlBuilder) (org project : Option String),
      (truthyS (pyOrStr org b.default_org) = false →
        b.resolve_org_project org project = .error (.valueError orgRequiredMsg)) ∧
      (truthyS (pyOrStr org b.default_org) = true →
        truthyS (pyOrStr project b.default_project) = false →
        b.resolve_org_project org project = .error (.valueError projectRequiredMsg)) ∧
      (∀ o p, org = some o → o ≠ "" → project = some p → p ≠ "" →
        b.resolve_org_project org project = .ok (o, p)) ∧
      (∀ (q : MetricsQuery) (pv ml ec : Bool) (e : PyErr),
        b.resolve_org_project org project = .error e →
        (b.build_url q org project pv ml ec).2 = .error e) ∧
      containsStr orgRequiredMsg "Organization" = true ∧
      containsStr projectRequiredMsg "Project" = true := by
  intro b org project
  refine ⟨?_, ?_, ?_, ?_, by decide, by decide⟩
  · intro h
    simp [UrlBuilder.resolve_org_project, h]
  · intro h1 h2
    simp [UrlBuilder.resolve_org_project, h1, h2]
  · intro o p ho hone hp hpne
    subst ho hp
    simp [UrlBuilder.resolve_org_project, pyOrStr, truthyS, hone, hpne]
  · intro q pv ml ec e he
    rw [build_url_snd, he, except_bind_err]

/-- Witness for (amended) claim C3: no parameters and no defaults give the
organization error through `build_url`; defaults present but overridden by
explicit truthy parameters resolve to the parameters. -/
theorem C3_witness :
    UrlBuilder.resolve_org_project { } none none = .error (.valueError orgRequiredMsg) ∧
    (UrlBuilder.build_url { } { metrics_view := "bids_metrics" } none none true true true).2 =
      .error (.valueError orgRequiredMsg) ∧
    UrlBuilder.resolve_org_project
        { default_org := some "default-org", default_project := some "default-proj" }
        (some "demo") (some "my-project") = .ok ("demo", "my-project") ∧
    UrlBuilder.resolve_org_project { default_org := some "demo" } (some "") none =
      .error (.valueError projectRequiredMsg) :=
  ⟨(C3_org_project_resolution { } none none).1 rfl,
    (C3_org_project_resolution { } none none).2.2.2.1 { metrics_view := "bids_metrics" }
      true true true (.valueError orgRequiredMsg)
      ((C3_org_project_resolution { } none none).1 rfl),
    (C3_org_project_resolution
        { default_org := some "default-org", default_project := some "default-proj" }
        (some "demo") (some "my-project")).2.2.1 "demo" "my-project" rfl (by decide) rfl
      (by decide),
    (C3_org_project_resolution { default_org := some "demo" } (some "") none).2.1 rfl rfl⟩

/-- Claim C4: the URL outcome of `build_url` is independent of the query's
`comparison_time_range` — two queries differing only in that field yield
equal results, its presence only adds the non-fatal comparison warning —
and the `compare_tr` parameter is controlled solely by the
`enable_comparison` flag: `rill-PP` when true, entirely absent when
false. -/
theorem C4_comparison_decoupled :
    ∀ (b : UrlBuilder) (q : MetricsQuery) (c : Option TimeRange) (org proj : Option String)
      (pv ml ec : Bool),
      ((b.build_url q org proj pv ml ec).2 =
        (b.build_url { q with comparison_time_range := c } org proj pv ml ec).2) ∧
      (comparisonWarning ∈ (b.build_url q org proj pv ml ec).1 ↔
        q.comparison_time_range.isSome) ∧
      (∀ u, (b.build_url q org proj pv ml ec).2 = .ok u →
        u.compare_time_range = (if ec then some "rill-PP" else none) ∧
        (∀ v, ("compare_tr", v) ∈ u.params ↔ (ec = true ∧ v = "rill-PP"))) := by
  intro b q c org proj pv ml ec
  refine ⟨?_, ?_, ?_⟩
  · rfl
  · rw [build_url_fst]
    by_cases h1 : q.«where».isSome <;> by_cases h2 : q.having.isSome <;>
      by_cases h3 : q.comparison_time_range.isSome <;>
      simp [warn_unsupported_features, h1, h2, h3, comparisonWarning, whereWarning,
        havingWarning]
  · intro u hu
    obtain ⟨ro, rp, pn, g, _, _, _, _, hurl⟩ := build_url_ok_elim b q org proj pv ml ec u hu
    subst hurl
    have hc : (urlOf b q ro rp pv ml ec pn g).compare_time_range =
        build_comparison_param ec := by
      cases pv <;> rfl
    constructor
    · rw [hc]; cases ec <;> rfl
    · intro v
      rw [params_compare_tr, hc]
      cases ec with
      | false => simp [build_comparison_param]
      | true =>
        simp only [build_comparison_param, ite_true, Option.some.injEq, true_and]
        constructor
        · rintro ⟨h, _⟩
          exact h.symm
        · rintro rfl
          exact ⟨rfl, by decide⟩

/-- The URL produced for the C4 witness (comparison enabled). -/
def c4u : RillUrl :=
  { base_url := "https://ui.rilldata.com", org := "demo", project := "p",
    page_name := "bids_explore", compare_time_range := some "rill-PP" }

/-- Witness for claim C4 at a concrete builder and query: adding a
comparison time range changes nothing in the URL outcome, and with the
flag enabled the produced URL carries `compare_tr = rill-PP`. -/
theorem C4_witness :
    ((UrlBuilder.build_url { default_org := some "demo", default_project := some "p" }
        { metrics_view := "bids_metrics" } none none false true false).2 =
      (UrlBuilder.build_url { default_org := some "demo", default_project := some "p" }
        { metrics_view := "bids_metrics",
          comparison_time_range := some { iso_duration := some "P7D" } }
        none none false true false).2) ∧
    c4u.compare_time_range = (if true then some "rill-PP" else none) ∧
    (("compare_tr", "rill-PP") ∈ c4u.params ↔ (true = true ∧ "rill-PP" = "rill-PP")) :=
  ⟨(C4_comparison_decoupled { default_org := some "demo", default_project := some "p" }
      { metrics_view := "bids_metrics" } (some { iso_duration := some "P7D" })
      none none false true false).1,
    ((C4_comparison_decoupled { default_org := some "demo", default_project := some "p" }
      { metrics_view := "bids_metrics" } none none none false true true).2.2 c4u
      (by decide)).1,
    ((C4_comparison_decoupled { default_org := some "demo", default_project := some "p" }
      { metrics_view := "bids_metrics" } none none none false true true).2.2 c4u
      (by decide)).2 "rill-PP"⟩

/-- Claim C7: the `tr` parameter renders the time range with priority
`iso_duration` (verbatim), then absolute `start`/`end` (dates joined by
`" to "` with the time-of-day from the first `T` onward stripped), then
the free-form `expression` (verbatim); with no time range, `tr` is absent.
The produced URL's `tr` field is exactly this rendering. -/
theorem C7_time_range_rendering :
    (∀ (tr : TimeRange) (s : String), tr.iso_duration = some s → s ≠ "" →
      build_time_range_param (some tr) = some s) ∧
    (∀ (tr : TimeRange) (s e : String), truthyS tr.iso_duration = false →
      tr.start = some s → s ≠ "" → tr.«end» = some e → e ≠ "" →
      build_time_range_param (some tr) = some (splitT s ++ " to " ++ splitT e)) ∧
    (∀ (tr : TimeRange) (x : String), truthyS tr.iso_duration = false →
      (truthyS tr.start && truthyS tr.«end») = false → tr.expression = some x → x ≠ "" →
      build_time_range_param (some tr) = some x) ∧
    build_time_range_param none = none ∧
    (∀ tr : TimeRange, truthyS tr.iso_duration = false →
      (truthyS tr.start && truthyS tr.«end») = false → truthyS tr.expression = false →
      build_time_range_param (some tr) = none) ∧
    (∀ pre post : String, (∀ c ∈ pre.data, c ≠ 'T') →
      splitT ⟨pre.data ++ 'T' :: post.data⟩ = pre) ∧
    build_time_range_param
        (some { start := some "2025-11-12T00:00:00Z", «end» := some "2025-11-15T23:59:59Z" }) =
      some "2025-11-12 to 2025-11-15" ∧
    (∀ (b : UrlBuilder) (q : MetricsQuery) (org proj : Option String) (pv ml ec : Bool)
      (u : RillUrl), (b.build_url q org proj pv ml ec).2 = .ok u →
      u.time_range = build_time_range_param q.time_range ∧
      (∀ v, ("tr", v) ∈ u.params ↔ u.time_range = some v ∧ v ≠ "")) := by
  refine ⟨?_, ?_, ?_, rfl, ?_, ?_, by decide, ?_⟩
  · intro tr s h1 h2
    simp [build_time_range_param, h1, truthyS, h2]
  · intro tr s e hiso hs hsne he hene
    simp only [build_time_range_param, hiso, Bool.false_eq_true, if_false, ite_false, hs, he]
    simp [truthyS, hsne, hene]
  · intro tr x hiso habs hx hxne
    simp only [build_time_range_param, hiso, habs, Bool.false_eq_true, if_false, ite_false,
      hx]
    simp [truthyS, hxne]
  · intro tr hiso habs hexp
    simp only [build_time_range_param, hiso, habs, hexp, Bool.false_eq_true, if_false,
      ite_false]
  · intro pre post hpre
    have hx : (fun c => decide (c ≠ 'T')) 'T' = false := by decide
    have hall : ∀ c ∈ pre.data, (fun c => decide (c ≠ 'T')) c = true := by
      intro c hc
      simpa using hpre c hc
    unfold splitT
    rw [(takeWhile_block (fun c => decide (c ≠ 'T')) pre.data 'T' post.data hall hx).1]
  · intro b q org proj pv ml ec u hu
    obtain ⟨ro, rp, pn, g, _, _, _, _, hurl⟩ := build_url_ok_elim b q org proj pv ml ec u hu
    subst hurl
    have hfield : (urlOf b q ro rp pv ml ec pn g).time_range =
        build_time_range_param q.time_range := by
      cases pv <;> rfl
    exact ⟨hfield, fun v => params_tr _ v⟩

/-- Witness for claim C7: the `P7D` duration passes through verbatim, the
absolute example from the spec renders as the date pair, and the stripping
helper drops everything from the `T` onward. -/
theorem C7_witness :
    build_time_range_param (some { iso_duration := some "P7D" }) = some "P7D" ∧
    build_time_range_param
        (some { start := some "2025-11-12T00:00:00Z", «end» := some "2025-11-15T23:59:59Z" }) =
      some (splitT "2025-11-12T00:00:00Z" ++ " to " ++ splitT "2025-11-15T23:59:59Z") ∧
    splitT ⟨("2025-11-12" : String).data ++ 'T' :: ("00:00:00Z" : String).data⟩ = "2025-11-12" :=
  ⟨C7_time_range_rendering.1 { iso_duration := some "P7D" } "P7D" rfl (by decide),
    C7_time_range_rendering.2.1
      { start := some "2025-11-12T00:00:00Z", «end» := some "2025-11-15T23:59:59Z" }
      "2025-11-12T00:00:00Z" "2025-11-15T23:59:59Z" rfl rfl (by decide) rfl (by decide),
    C7_time_range_rendering.2.2.2.2.2.1 "2025-11-12" "00:00:00Z" (by decide)⟩

/-- First-sort projection under a non-empty sort list. -/
theorem get_sort_params_cons (q : MetricsQuery) (s : Sort') (rest : List Sort')
    (h : q.sort = some (s :: rest)) :
    get_sort_params q = (some (if s.desc then "DESC" else "ASC"), some s.name) := by
  simp [get_sort_params, h]

/-- Sort projection with an absent or empty sort list. -/
theorem get_sort_params_empty (q : MetricsQuery) (h : q.sort = none ∨ q.sort = some []) :
    get_sort_params q = (none, none) := by
  rcases h with h | h <;> simp [get_sort_params, h]

/-- Counterexample to claim C2 as stated: a pivot-mode URL built from a
query with a descending sort carries `sort_by` but no `sort_dir` at all —
the pivot branch never sets `sort_dir` — so the claimed projection does
not hold "for every value of the pivot flag". -/
theorem C2_counterexample :
    ((UrlBuilder.build_url { default_org := some "demo", default_project := some "my-project" }
        { metrics_view := "bids_metrics",
          sort := some [{ name := "overall_spend", desc := true }] }
        none none true true false).2.map
      (fun u => (u.sort_dir, u.sort_by, u.params.filter (fun p => p.1 = "sort_dir")))) =
      .ok (none, some "overall_spend", []) := by decide

/-- Claim C2 (amended): only the first sort entry is projected into the
URL and later entries have no effect; in standard (non-pivot) mode
`sort_by` is the first entry's name and `sort_dir` is `DESC`/`ASC` per its
`desc` flag, while in pivot mode only `sort_by` is emitted and `sort_dir`
is always absent; with an empty or absent sort list neither `sort_by` nor
`sort_dir` appears. -/
theorem C2_first_sort_projection :
    ∀ (b : UrlBuilder) (q : MetricsQuery) (org proj : Option String) (ml ec : Bool)
      (u : RillUrl) (s : Sort') (rest : List Sort'),
      (q.sort = some (s :: rest) →
        ((b.build_url q org proj false ml ec).2 = .ok u →
          u.sort_by = some s.name ∧
          u.sort_dir = some (if s.desc then "DESC" else "ASC") ∧
          ("sort_dir", if s.desc then "DESC" else "ASC") ∈ u.params) ∧
        ((b.build_url q org proj true ml ec).2 = .ok u →
          u.sort_by = some s.name ∧ u.sort_dir = none ∧
          (∀ v, ("sort_dir", v) ∉ u.params)) ∧
        (∀ pv, b.build_url q org proj pv ml ec =
          b.build_url { q with sort := some [s] } org proj pv ml ec)) ∧
      ((q.sort = none ∨ q.sort = some []) →
        ∀ pv, (b.build_url q org proj pv ml ec).2 = .ok u →
          (∀ v, ("sort_by", v) ∉ u.params ∧ ("sort_dir", v) ∉ u.params)) := by
  intro b q org proj ml ec u s rest
  constructor
  · intro hsort
    have hsp := get_sort_params_cons q s rest hsort
    refine ⟨?_, ?_, ?_⟩
    · intro hu
      obtain ⟨ro, rp, pn, g, _, _, _, _, hurl⟩ := build_url_ok_elim b q org proj false ml ec u hu
      subst hurl
      have h1 : (urlOf b q ro rp false ml ec pn g).sort_dir = (get_sort_params q).1 := rfl
      have h2 : (urlOf b q ro rp false ml ec pn g).sort_by = (get_sort_params q).2 := rfl
      rw [hsp] at h1 h2
      refine ⟨h2, h1, ?_⟩
      rw [params_sort_dir, h1]
      cases s.desc <;> simp
    · intro hu
      obtain ⟨ro, rp, pn, g, _, _, _, _, hurl⟩ := build_url_ok_elim b q org proj true ml ec u hu
      subst hurl
      have h1 : (urlOf b q ro rp true ml ec pn g).sort_dir = none := rfl
      have h2 : (urlOf b q ro rp true ml ec pn g).sort_by =
          some ((get_sort_params q).2.getD "") := rfl
      rw [hsp] at h2
      simp only [Option.getD_some] at h2
      refine ⟨h2, h1, ?_⟩
      intro v
      simp [params_sort_dir, h1]
    · intro pv
      cases q with
      | mk mv dims meas w hv trn ctr spn srt lim off po tz udn rws =>
        change srt = some (s :: rest) at hsort
        subst hsort
        rfl
  · intro hsort pv hu
    have hsp := get_sort_params_empty q hsort
    obtain ⟨ro, rp, pn, g, _, _, _, _, hurl⟩ := build_url_ok_elim b q org proj pv ml ec u hu
    subst hurl
    intro v
    cases pv with
    | false =>
      have h1 : (urlOf b q ro rp false ml ec pn g).sort_dir = (get_sort_params q).1 := rfl
      have h2 : (urlOf b q ro rp false ml ec pn g).sort_by = (get_sort_params q).2 := rfl
      rw [hsp] at h1 h2
      constructor
      · simp [params_sort_by, h2]
      · simp [params_sort_dir, h1]
    | true =>
      have h1 : (urlOf b q ro rp true ml ec pn g).sort_dir = none := rfl
      have h2 : (urlOf b q ro rp true ml ec pn g).sort_by =
          some ((get_sort_params q).2.getD "") := rfl
      rw [hsp] at h2
      simp only [Option.getD_none] at h2
      constructor
      · rw [params_sort_by, h2]
        rintro ⟨hv, hne⟩
        exact hne (Option.some.inj hv).symm
      · simp [params_sort_dir, h1]

/-- Builder used by the C2 witness. -/
def c2b : UrlBuilder := { default_org := some "demo", default_project := some "my-project" }

/-- Query with two sort entries used by the C2 witness. -/
def c2q : MetricsQuery :=
  { metrics_view := "bids_metrics",
    sort := some [{ name := "overall_spend", desc := true },
                  { name := "total_bids", desc := false }] }

/-- Standard-mode URL produced for the C2 witness. -/
def c2u : RillUrl :=
  { base_url := "https://ui.rilldata.com", org := "demo", project := "my-project",
    page_name := "bids_explore", sort_dir := some "DESC", sort_by := some "overall_spend" }

/-- Witness for (amended) claim C2: a two-entry sort list projects only
its first entry, and dropping the second entry changes nothing. -/
theorem C2_witness :
    c2u.sort_by = some (Sort'.mk "overall_spend" true).name ∧
    c2u.sort_dir = some (if (Sort'.mk "overall_spend" true).desc then "DESC" else "ASC") ∧
    UrlBuilder.build_url c2b c2q none none false true false =
      UrlBuilder.build_url c2b { c2q with sort := some [Sort'.mk "overall_spend" true] }
        none none false true false :=
  ⟨(((C2_first_sort_projection c2b c2q none none true false c2u
      (Sort'.mk "overall_spend" true) [Sort'.mk "total_bids" false]).1 rfl).1 (by decide)).1,
    (((C2_first_sort_projection c2b c2q none none true false c2u
      (Sort'.mk "overall_spend" true) [Sort'.mk "total_bids" false]).1 rfl).1 (by decide)).2.1,
    (((C2_first_sort_projection c2b c2q none none true false c2u
      (Sort'.mk "overall_spend" true) [Sort'.mk "total_bids" false]).1 rfl).2.2 false)⟩

/-- Claim C8: with `pivot=true` the URL carries `view=pivot` and
`table_mode=nest`, its `rows` are the comma-joined dimension names and its
`cols` the comma-joined measure names, and the ordinary `measures`,
`dims` and `leaderboard_measures` parameters are entirely absent; with
`pivot=false` none of `view`, `rows`, `cols`, `table_mode` appear. -/
theorem C8_pivot_mode :
    ∀ (b : UrlBuilder) (q : MetricsQuery) (org proj : Option String) (ml ec : Bool)
      (u : RillUrl),
      ((b.build_url q org proj true ml ec).2 = .ok u →
        u.view = some "pivot" ∧ u.table_mode = some "nest" ∧
        ("view", "pivot") ∈ u.params ∧ ("table_mode", "nest") ∈ u.params ∧
        u.measures = none ∧ u.dimensions = none ∧ u.leaderboard_measures = none ∧
        (∀ v, ("measures", v) ∉ u.params) ∧ (∀ v, ("dims", v) ∉ u.params) ∧
        (∀ v, ("leaderboard_measures", v) ∉ u.params) ∧
        u.rows = dimension_names q ∧ u.cols = measure_names q ∧
        (∀ (d : Dimension) (ds : List Dimension), q.dimensions = some (d :: ds) →
          ("rows", String.intercalate "," ((d :: ds).map Dimension.name)) ∈ u.params) ∧
        (∀ (m : Measure) (ms : List Measure), q.measures = some (m :: ms) →
          ("cols", String.intercalate "," ((m :: ms).map Measure.name)) ∈ u.params)) ∧
      ((b.build_url q org proj false ml ec).2 = .ok u →
        u.view = none ∧ u.rows = none ∧ u.cols = none ∧ u.table_mode = none ∧
        (∀ v, ("view", v) ∉ u.params ∧ ("rows", v) ∉ u.params ∧ ("cols", v) ∉ u.params ∧
          ("table_mode", v) ∉ u.params)) := by
  intro b q org proj ml ec u
  constructor
  · intro hu
    obtain ⟨ro, rp, pn, g, _, _, _, _, hurl⟩ := build_url_ok_elim b q org proj true ml ec u hu
    subst hurl
    refine ⟨rfl, rfl, ?_, ?_, rfl, rfl, rfl, ?_, ?_, ?_, rfl, rfl, ?_, ?_⟩
    · exact (params_view _ _).mpr ⟨rfl, by decide⟩
    · exact (params_table_mode _ _).mpr ⟨rfl, by decide⟩
    · intro v
      simp [params_measures, show (urlOf b q ro rp true ml ec pn g).measures = none from rfl]
    · intro v
      simp [params_dims, show (urlOf b q ro rp true ml ec pn g).dimensions = none from rfl]
    · intro v
      simp [params_leaderboard,
        show (urlOf b q ro rp true ml ec pn g).leaderboard_measures = none from rfl]
    · intro d ds hdim
      refine (params_rows _ _).mpr ⟨(d :: ds).map Dimension.name, ?_, by simp, rfl⟩
      show dimension_names q = _
      simp [dimension_names, hdim]
    · intro m ms hmeas
      refine (params_cols _ _).mpr ⟨(m :: ms).map Measure.name, ?_, by simp, rfl⟩
      show measure_names q = _
      simp [measure_names, hmeas]
  · intro hu
    obtain ⟨ro, rp, pn, g, _, _, _, _, hurl⟩ := build_url_ok_elim b q org proj false ml ec u hu
    subst hurl
    refine ⟨rfl, rfl, rfl, rfl, ?_⟩
    intro v
    refine ⟨?_, ?_, ?_, ?_⟩
    · simp [params_view, show (urlOf b q ro rp false ml ec pn g).view = none from rfl]
    · simp [params_rows, show (urlOf b q ro rp false ml ec pn g).rows = none from rfl]
    · simp [params_cols, show (urlOf b q ro rp false ml ec pn g).cols = none from rfl]
    · simp [params_table_mode,
        show (urlOf b q ro rp false ml ec pn g).table_mode = none from rfl]

/-- Builder used by the C8 witness. -/
def c8b : UrlBuilder := { default_org := some "demo", default_project := some "my-project" }

/-- Pivot query of the spec's pivot example (one dimension, two measures). -/
def c8q : MetricsQuery :=
  { metrics_view := "bids_metrics",
    dimensions := some [{ name := "d1" }],
    measures := some [{ name := "m1" }, { name := "m2" }] }

/-- Pivot URL produced for the C8 witness. -/
def c8u : RillUrl :=
  { base_url := "https://ui.rilldata.com", org := "demo", project := "my-project",
    page_name := "bids_explore", view := some "pivot", rows := some ["d1"],
    cols := some ["m1", "m2"], table_mode := some "nest", sort_by := some "" }

/-- Witness for claim C8 at the spec's pivot example. -/
theorem C8_witness :
    c8u.view = some "pivot" ∧ c8u.table_mode = some "nest" ∧
    ("rows", String.intercalate "," (([{ name := "d1" }] : List Dimension).map Dimension.name)) ∈
      c8u.params ∧
    ("cols", String.intercalate ","
        (([{ name := "m1" }, { name := "m2" }] : List Measure).map Measure.name)) ∈
      c8u.params ∧
    (∀ v, ("measures", v) ∉ c8u.params) ∧ (∀ v, ("leaderboard_measures", v) ∉ c8u.params) :=
  ⟨((C8_pivot_mode c8b c8q none none true false c8u).1 (by decide)).1,
    ((C8_pivot_mode c8b c8q none none true false c8u).1 (by decide)).2.1,
    ((C8_pivot_mode c8b c8q none none true false c8u).1 (by decide)).2.2.2.2.2.2.2.2.2.2.2.2.1
      { name := "d1" } [] rfl,
    ((C8_pivot_mode c8b c8q none none true false c8u).1 (by decide)).2.2.2.2.2.2.2.2.2.2.2.2.2
      { name := "m1" } [{ name := "m2" }] rfl,
    ((C8_pivot_mode c8b c8q none none true false c8u).1 (by decide)).2.2.2.2.2.2.2.1,
    ((C8_pivot_mode c8b c8q none none true false c8u).1 (by decide)).2.2.2.2.2.2.2.2.2.1⟩

/-- Claim C1: the grain heuristic.  The ISO-duration parser yields exact
days for `D`, times 7 for `W`, times 30 for `M`, times 365 for `Y`; a
parsed duration span of more than 2 days gives `grain=day`, otherwise
`grain=hour`; failing that, the span is computed directly from the parsed
absolute `start`/`end` timestamps (more than 172800 seconds, i.e. 2 days,
gives `day`); when the span cannot be determined — no time range,
free-form-expression-only range, unparseable-duration-only range — the
grain is absent.  `P7D` yields `day` and `P1D` yields `hour`, and the
URL's `grain` field and parameter carry exactly this computation. -/
theorem C1_grain_heuristic :
    (∀ (ds rest : List Char), ds ≠ [] → (∀ c ∈ ds, c.isDigit = true) →
      parse_iso_duration_days ⟨'P' :: (ds ++ 'D' :: rest)⟩ = some (natOfDigits ds) ∧
      parse_iso_duration_days ⟨'P' :: (ds ++ 'W' :: rest)⟩ = some (natOfDigits ds * 7) ∧
      parse_iso_duration_days ⟨'P' :: (ds ++ 'M' :: rest)⟩ = some (natOfDigits ds * 30) ∧
      parse_iso_duration_days ⟨'P' :: (ds ++ 'Y' :: rest)⟩ = some (natOfDigits ds * 365)) ∧
    (∀ (tr : TimeRange) (s : String) (days : Nat),
      tr.iso_duration = some s → s ≠ "" → parse_iso_duration_days s = some days →
      calculate_grain (some tr) = .ok (some (if 2 < days then "day" else "hour"))) ∧
    (∀ (tr : TimeRange) (s e : String) (sdt edt : PyDatetime),
      (∀ s', tr.iso_duration = some s' → s' = "" ∨ parse_iso_duration_days s' = none) →
      tr.start = some s → s ≠ "" → tr.«end» = some e → e ≠ "" →
      fromisoformat (replaceZ s) = some sdt → fromisoformat (replaceZ e) = some edt →
      sdt.aware = edt.aware →
      calculate_grain (some tr) =
        .ok (some (if 172800 < edt.seconds - sdt.seconds then "day" else "hour"))) ∧
    calculate_grain none = .ok none ∧
    (∀ tr : TimeRange, tr.start = none → tr.«end» = none →
      (∀ s', tr.iso_duration = some s' → s' = "" ∨ parse_iso_duration_days s' = none) →
      calculate_grain (some tr) = .ok none) ∧
    calculate_grain (some { iso_duration := some "P7D" }) = .ok (some "day") ∧
    calculate_grain (some { iso_duration := some "P1D" }) = .ok (some "hour") ∧
    (∀ (b : UrlBuilder) (q : MetricsQuery) (org proj : Option String) (pv ml ec : Bool)
      (u : RillUrl), (b.build_url q org proj pv ml ec).2 = .ok u →
      Except.ok u.grain = calculate_grain q.time_range ∧
      (∀ g, ("grain", g) ∈ u.params ↔ u.grain = some g ∧ g ≠ "")) := by
  refine ⟨?_, ?_, ?_, rfl, ?_, by decide, by decide, ?_⟩
  · intro ds rest hne hall
    have hD := takeWhile_block Char.isDigit ds 'D' rest hall (by decide)
    have hW := takeWhile_block Char.isDigit ds 'W' rest hall (by decide)
    have hM := takeWhile_block Char.isDigit ds 'M' rest hall (by decide)
    have hY := takeWhile_block Char.isDigit ds 'Y' rest hall (by decide)
    refine ⟨?_, ?_, ?_, ?_⟩ <;>
      simp [parse_iso_duration_days, hD.1, hD.2, hW.1, hW.2, hM.1, hM.2, hY.1, hY.2, hne]
  · intro tr s days h1 h2 h3
    simp [calculate_grain, h1, truthyS, h2, h3]
  · intro tr s e sdt edt hiso hs hsne he hene hps hpe haw
    have hig : (if truthyS tr.iso_duration then
        match parse_iso_duration_days (tr.iso_duration.getD "") with
        | some days => some (if 2 < days then "day" else "hour")
        | none => none
      else none) = (none : Option String) := by
      cases hd : tr.iso_duration with
      | none => simp [truthyS]
      | some s' =>
        rcases hiso s' hd with h' | h'
        · simp [truthyS, h']
        · simp [h', ite_self]
    simp only [calculate_grain, hig]
    simp [hs, he, truthyS, hsne, hene, hps, hpe, haw]
  · intro tr hs he hiso
    have hig : (if truthyS tr.iso_duration then
        match parse_iso_duration_days (tr.iso_duration.getD "") with
        | some days => some (if 2 < days then "day" else "hour")
        | none => none
      else none) = (none : Option String) := by
      cases hd : tr.iso_duration with
      | none => simp [truthyS]
      | some s' =>
        rcases hiso s' hd with h' | h'
        · simp [truthyS, h']
        · simp [h', ite_self]
    simp only [calculate_grain, hig]
    simp [hs, he, truthyS]
  · intro b q org proj pv ml ec u hu
    obtain ⟨ro, rp, pn, g, _, _, _, hg, hurl⟩ := build_url_ok_elim b q org proj pv ml ec u hu
    subst hurl
    have hfield : (urlOf b q ro rp pv ml ec pn g).grain = g := by
      cases pv <;> rfl
    exact ⟨by rw [hfield, hg], fun g' => params_grain _ g'⟩

/-- Witness for claim C1: `P7D` gives `grain=day` through the duration
branch, the spec's absolute example gives `day` through the timestamp
branch, and an expression-only range gives no grain. -/
theorem C1_witness :
    calculate_grain (some { iso_duration := some "P7D" }) =
      .ok (some (if 2 < 7 then "day" else "hour")) ∧
    calculate_grain
        (some { start := some "2025-11-12T00:00:00Z", «end» := some "2025-11-15T23:59:59Z" }) =
      .ok (some (if 172800 < (1763251199 : Int) - 1762905600 then "day" else "hour")) ∧
    calculate_grain (some { expression := some "LAST_7_DAYS" }) = .ok none :=
  ⟨C1_grain_heuristic.2.1 { iso_duration := some "P7D" } "P7D" 7 rfl (by decide) (by decide),
    C1_grain_heuristic.2.2.1
      { start := some "2025-11-12T00:00:00Z", «end» := some "2025-11-15T23:59:59Z" }
      "2025-11-12T00:00:00Z" "2025-11-15T23:59:59Z" ⟨1762905600, true⟩ ⟨1763251199, true⟩
      (fun _ h => nomatch h) rfl (by decide) rfl (by decide) (by decide) (by decide) rfl,
    C1_grain_heuristic.2.2.2.2.1 { expression := some "LAST_7_DAYS" } rfl rfl
      (fun _ h => nomatch h)⟩
